import Mathlib

/-!
Node daemon-set provisioning of the CSI bare-metal operator.

A shallow embedding of `pkg/node.go`: the reconciler `Node.Update`, the
template assembler `createNodeDaemonSet`, the volume and container builders
and the two small resolvers `constructImage` and `constructSidecar`.

Conventions of the embedding

* Go pointers are `Option`; dereferencing `nil` makes the enclosing function
  yield `none` (the Go program panics there).
* Only the pointer types that `node.go` itself fixes are pointers here:
  `*components.Image` (parameter of `constructImage`) and
  `*components.Sidecar` (the loop variable assigned to `lp` and `dr`).  The
  sections `Spec`, `Driver`, `Node` and `DriveMgr` are plain records.
* Package-level names that `node.go` uses but does not declare (`CSIName`,
  `LogsVolume`, `GetNamespace`, ...) are the fields of `pkg.Externals`, which
  every function takes as its first argument.
* Go maps with string keys are association lists.
-/

set_option autoImplicit false
set_option linter.dupNamespace false

/-! ## Request schema (`api/v1` and `api/v1/components`) -/

namespace components

/-- Image descriptor. -/
structure Image where
  Name : String := ""
  Registry : String := ""
  Tag : String := ""
  PullPolicy : String := ""
deriving DecidableEq, Repr

/-- Sidecar override: a well-known name and a pointer to an image. -/
structure Sidecar where
  Name : String := ""
  Image : Option Image := none
deriving DecidableEq, Repr

/-- Drive-manager section. -/
structure DriveMgr where
  Image : Option Image := none
deriving DecidableEq, Repr

/-- Node section of the driver. -/
structure Node where
  DriveMgr : DriveMgr := {}
  Image : Option Image := none
  Sidecars : List (Option Sidecar) := []
  TestEnv : Bool := false
deriving DecidableEq, Repr

/-- Driver section. -/
structure Driver where
  Node : Node := {}
deriving DecidableEq, Repr

end components

namespace csibaremetalv1

/-- Desired state of a deployment. -/
structure DeploymentSpec where
  Driver : components.Driver := {}
  GlobalRegistry : String := ""
deriving DecidableEq, Repr

/-- The custom resource handed to the reconciler. -/
structure Deployment where
  Name : String := ""
  Namespace : String := ""
  Spec : DeploymentSpec := {}
deriving DecidableEq, Repr

end csibaremetalv1

/-! ## The fragment of the Kubernetes object model that `node.go` fills in -/

namespace intstr

/-- Either an integer or a string (a port number or a port name). -/
inductive IntOrString where
  | int (v : Int)
  | str (s : String)
deriving DecidableEq, Repr

/-- The constructor `intstr.FromString`. -/
def FromString (s : String) : IntOrString := IntOrString.str s

end intstr

namespace corev1

/-- Host-path type constants. -/
inductive HostPathType where
  | HostPathUnset
  | HostPathDirectoryOrCreate
  | HostPathDirectory
  | HostPathFileOrCreate
  | HostPathFile
  | HostPathSocket
  | HostPathCharDev
  | HostPathBlockDev
deriving DecidableEq, Repr

/-- Mount propagation constants. -/
inductive MountPropagationMode where
  | MountPropagationNone
  | MountPropagationHostToContainer
  | MountPropagationBidirectional
deriving DecidableEq, Repr

/-- Port protocol constants. -/
inductive Protocol where
  | unset
  | ProtocolTCP
  | ProtocolUDP
  | ProtocolSCTP
deriving DecidableEq, Repr

structure HostPathVolumeSource where
  Path : String := ""
  Type_ : Option HostPathType := none
deriving DecidableEq, Repr

structure EmptyDirVolumeSource where
  Medium : String := ""
deriving DecidableEq, Repr

structure LocalObjectReference where
  Name : String := ""
deriving DecidableEq, Repr

structure ConfigMapVolumeSource where
  LocalObjectReference : LocalObjectReference := {}
  Optional : Option Bool := none
deriving DecidableEq, Repr

structure VolumeSource where
  HostPath : Option HostPathVolumeSource := none
  EmptyDir : Option EmptyDirVolumeSource := none
  ConfigMap : Option ConfigMapVolumeSource := none
deriving DecidableEq, Repr

structure Volume where
  Name : String := ""
  VolumeSource : VolumeSource := {}
deriving DecidableEq, Repr

structure VolumeMount where
  Name : String := ""
  MountPath : String := ""
  MountPropagation : Option MountPropagationMode := none
deriving DecidableEq, Repr

structure ObjectFieldSelector where
  APIVersion : String := ""
  FieldPath : String := ""
deriving DecidableEq, Repr

structure EnvVarSource where
  FieldRef : Option ObjectFieldSelector := none
deriving DecidableEq, Repr

structure EnvVar where
  Name : String := ""
  Value : String := ""
  ValueFrom : Option EnvVarSource := none
deriving DecidableEq, Repr

structure ContainerPort where
  Name : String := ""
  ContainerPort : Int := 0
  Protocol : Protocol := Protocol.unset
deriving DecidableEq, Repr

structure ExecAction where
  Command : List String := []
deriving DecidableEq, Repr

structure HTTPGetAction where
  Path : String := ""
  Port : intstr.IntOrString := intstr.IntOrString.int 0
deriving DecidableEq, Repr

structure Handler where
  Exec : Option ExecAction := none
  HTTPGet : Option HTTPGetAction := none
deriving DecidableEq, Repr

structure Lifecycle where
  PreStop : Option Handler := none
deriving DecidableEq, Repr

structure Probe where
  Handler : Handler := {}
  InitialDelaySeconds : Int := 0
  TimeoutSeconds : Int := 0
  PeriodSeconds : Int := 0
  SuccessThreshold : Int := 0
  FailureThreshold : Int := 0
deriving DecidableEq, Repr

structure SecurityContext where
  Privileged : Option Bool := none
deriving DecidableEq, Repr

structure Container where
  Name : String := ""
  Image : String := ""
  ImagePullPolicy : String := ""
  Args : List String := []
  Ports : List ContainerPort := []
  Env : List EnvVar := []
  VolumeMounts : List VolumeMount := []
  LivenessProbe : Option Probe := none
  ReadinessProbe : Option Probe := none
  Lifecycle : Option Lifecycle := none
  SecurityContext : Option SecurityContext := none
deriving DecidableEq, Repr

structure PodSpec where
  Volumes : List Volume := []
  Containers : List Container := []
  TerminationGracePeriodSeconds : Option Int := none
  NodeSelector : List (String × String) := []
  ServiceAccountName : String := ""
  HostIPC : Bool := false
deriving DecidableEq, Repr

end corev1

namespace metav1

structure ObjectMeta where
  Name : String := ""
  Namespace : String := ""
  Labels : List (String × String) := []
  Annotations : List (String × String) := []
deriving DecidableEq, Repr

structure LabelSelector where
  MatchLabels : List (String × String) := []
deriving DecidableEq, Repr

end metav1

namespace corev1

structure PodTemplateSpec where
  ObjectMeta : metav1.ObjectMeta := {}
  Spec : PodSpec := {}
deriving DecidableEq, Repr

end corev1

namespace v1

structure DaemonSetSpec where
  Selector : Option metav1.LabelSelector := none
  Template : corev1.PodTemplateSpec := {}
deriving DecidableEq, Repr

structure DaemonSet where
  ObjectMeta : metav1.ObjectMeta := {}
  Spec : DaemonSetSpec := {}
deriving DecidableEq, Repr

end v1

namespace strconv

/-- Decimal rendering of an integer, as `strconv.Itoa`. -/
def Itoa (i : Int) : String := toString i

/-- Rendering of a boolean, as `strconv.FormatBool`. -/
def FormatBool (b : Bool) : String := if b then "true" else "false"

end strconv

/-! ## `pkg/node.go` -/

namespace pkg

open csibaremetalv1 components

/-- Package-level names used by `node.go` and declared in other files of the
package: they are parameters of the embedding. -/
structure Externals where
  CSIName : String
  LogsVolume : String
  CSISocketDirVolume : String
  LivenessPort : String
  PrometheusPort : Int
  TerminationGracePeriodSeconds : Int
  UseNodeAnnotation : Bool
  GetNamespace : Deployment → String

def nodeName (k : Externals) : String := k.CSIName ++ "-node"
def nodeServiceAccountName : String := "csi-node-sa"
def loopbackManagerConfigName : String := "loopback-config"

-- ports
def driveManagerPort : Int := 8888

-- volumes
def registrationDirVolume : String := "registration-dir"
def hostDevVolume : String := "host-dev"
def hostHomeVolume : String := "host-home"
def hostSysVolume : String := "host-sys"
def hostRootVolume : String := "host-root"
def hostRunUdevVolume : String := "host-run-udev"
def hostRunLVMVolume : String := "host-run-lvm"
def hostRunLock : String := "host-run-lock"
def mountPointDirVolume : String := "mountpoint-dir"
def csiPathVolume : String := "csi-path"
def driveConfigVolume : String := "drive-config"

def livenessProbeSidecar : String := "liveness-probe"
def driverRegistrarSidecar : String := "csi-node-driver-registrar"

/-- The function `createNodeVolumes`: the fixed volume list of the pod. -/
def createNodeVolumes (k : Externals) : List corev1.Volume :=
  let directory := corev1.HostPathType.HostPathDirectory
  let directoryOrCreate := corev1.HostPathType.HostPathDirectoryOrCreate
  [ { Name := k.LogsVolume, VolumeSource := { EmptyDir := some {} } },
    { Name := hostDevVolume, VolumeSource :=
        { HostPath := some { Path := "/dev", Type_ := some directory } } },
    { Name := hostHomeVolume, VolumeSource :=
        { HostPath := some { Path := "/home", Type_ := some directory } } },
    { Name := hostSysVolume, VolumeSource :=
        { HostPath := some { Path := "/sys", Type_ := some directory } } },
    { Name := hostRootVolume, VolumeSource :=
        { HostPath := some { Path := "/", Type_ := some directory } } },
    { Name := hostRunUdevVolume, VolumeSource :=
        { HostPath := some { Path := "/run/udev", Type_ := some directory } } },
    { Name := hostRunLVMVolume, VolumeSource :=
        { HostPath := some { Path := "/run/lvm", Type_ := some directory } } },
    { Name := hostRunLock, VolumeSource :=
        { HostPath := some { Path := "/run/lock", Type_ := some directory } } },
    { Name := k.CSISocketDirVolume, VolumeSource :=
        { HostPath := some { Path := "/var/lib/kubelet/plugins/csi-baremetal",
                             Type_ := some directoryOrCreate } } },
    { Name := registrationDirVolume, VolumeSource :=
        { HostPath := some { Path := "/var/lib/kubelet/plugins_registry/",
                             Type_ := some directoryOrCreate } } },
    { Name := mountPointDirVolume, VolumeSource :=
        { HostPath := some { Path := "/var/lib/kubelet/pods", Type_ := some directory } } },
    { Name := csiPathVolume, VolumeSource :=
        { HostPath := some { Path := "/var/lib/kubelet/plugins/kubernetes.io/csi" } } },
    { Name := driveConfigVolume, VolumeSource :=
        { ConfigMap := some { LocalObjectReference := { Name := loopbackManagerConfigName },
                              Optional := some true } } } ]

/-- The function `constructImage`; a nil `image` is dereferenced on both
branches. -/
def constructImage (isTest : Bool) (image : Option Image) : Option String :=
  match image with
  | none => none
  | some image =>
    if isTest then
      some (image.Name ++ ":" ++ image.Tag)
    else
      some (image.Registry ++ "/" ++ image.Name ++ ":" ++ image.Tag)

/-- The function `constructSidecar`; the pointers it returns are never nil. -/
def constructSidecar (name registry tag pullPolicy : String) : Sidecar :=
  { Name := name,
    Image := some { Name := name, Registry := registry, Tag := tag, PullPolicy := pullPolicy } }

/-- The `for _, v := range ... Sidecars` loop of `createNodeContainers`, run
from the current values of `lp` and `dr`.  Each iteration reads `v.Name`, so a
nil entry ends the run; a matching entry is assigned and the loop continues
with the next entry. -/
def scanSidecars : List (Option Sidecar) → Option Sidecar → Option Sidecar →
    Option (Option Sidecar × Option Sidecar)
  | [], lp, dr => some (lp, dr)
  | none :: _, _, _ => none
  | some v :: rest, lp, dr =>
    if v.Name = livenessProbeSidecar then
      scanSidecars rest (some v) dr
    else if v.Name = driverRegistrarSidecar then
      scanSidecars rest lp (some v)
    else
      scanSidecars rest lp dr

/-- The expression `image.PullPolicy` on a pointer `image`. -/
def pullPolicyOf (image : Option Image) : Option String :=
  image.map (fun i => i.PullPolicy)

/-- The composite literal that `createNodeContainers` returns; its eight
computed fields (an image reference and a pull policy per container) are the
parameters. -/
def containersLiteral (k : Externals)
    (lpImage lpPullPolicy drImage drPullPolicy : String)
    (nodeImage nodePullPolicy driveMgrImage driveMgrPullPolicy : String) :
    List corev1.Container :=
  let bidirectional := corev1.MountPropagationMode.MountPropagationBidirectional
  [ { Name := "liveness-probe",
      Image := lpImage,
      ImagePullPolicy := lpPullPolicy,
      Args := ["--csi-address=/csi/csi.sock"],
      VolumeMounts := [ { Name := k.CSISocketDirVolume, MountPath := "/csi" } ] },
    { Name := "csi-node-driver-registrar",
      Image := drImage,
      ImagePullPolicy := drPullPolicy,
      Args := ["--v=5", "--csi-address=$(ADDRESS)",
               "--kubelet-registration-path=$(DRIVER_REG_SOCK_PATH)"],
      Lifecycle := some { PreStop := some { Exec := some { Command :=
        ["/bin/sh", "-c",
         "rm -rf /registration/csi-baremetal /registration/csi-baremetal-reg.sock"] } } },
      Env :=
        [ { Name := "ADDRESS", Value := "/csi/csi.sock" },
          { Name := "DRIVER_REG_SOCK_PATH",
            Value := "/var/lib/kubelet/plugins/csi-baremetal/csi.sock" },
          { Name := "KUBE_NODE_NAME", ValueFrom := some
              { FieldRef := some { APIVersion := "v1", FieldPath := "spec.nodeName" } } } ],
      VolumeMounts :=
        [ { Name := k.CSISocketDirVolume, MountPath := "/csi" },
          { Name := registrationDirVolume, MountPath := "/registration" } ] },
    { Name := "node",
      Image := nodeImage,
      ImagePullPolicy := nodePullPolicy,
      Args :=
        [ "--csiendpoint=$(CSI_ENDPOINT)",
          "--nodename=$(KUBE_NODE_NAME)",
          "--namespace=$(NAMESPACE)",
          "--extender=true",
          "--usenodeannotation=" ++ strconv.FormatBool k.UseNodeAnnotation,
          "--loglevel=info",
          "--metrics-address=:" ++ strconv.Itoa k.PrometheusPort,
          "--metrics-path=/metrics",
          "--drivemgrendpoint=tcp://localhost:" ++ strconv.Itoa driveManagerPort ],
      Ports :=
        [ { Name := k.LivenessPort, ContainerPort := 9808,
            Protocol := corev1.Protocol.ProtocolTCP },
          { Name := "metrics", ContainerPort := k.PrometheusPort,
            Protocol := corev1.Protocol.ProtocolTCP } ],
      LivenessProbe := some
        { Handler :=
            { HTTPGet := some
                { Path := "/healthz", Port := intstr.FromString k.LivenessPort } },
          InitialDelaySeconds := 300,
          TimeoutSeconds := 3,
          PeriodSeconds := 10,
          FailureThreshold := 5 },
      ReadinessProbe := some
        { Handler := { Exec := some { Command := ["/health_probe", "-addr=:9999"] } },
          InitialDelaySeconds := 3,
          PeriodSeconds := 3,
          SuccessThreshold := 3,
          FailureThreshold := 100 },
      Env :=
        [ { Name := "CSI_ENDPOINT", Value := "unix:///csi/csi.sock" },
          { Name := "LOG_FORMAT", Value := "text" },
          { Name := "KUBE_NODE_NAME", ValueFrom := some
              { FieldRef := some { APIVersion := "v1", FieldPath := "spec.nodeName" } } },
          { Name := "MY_POD_IP", ValueFrom := some
              { FieldRef := some { FieldPath := "status.podIP" } } },
          { Name := "NAMESPACE", ValueFrom := some
              { FieldRef := some { APIVersion := "v1", FieldPath := "metadata.namespace" } } } ],
      SecurityContext := some { Privileged := some true },
      VolumeMounts :=
        [ { Name := k.LogsVolume, MountPath := "/var/log" },
          { Name := hostDevVolume, MountPath := "/dev" },
          { Name := hostSysVolume, MountPath := "/sys" },
          { Name := hostRunUdevVolume, MountPath := "/run/udev" },
          { Name := hostRunLVMVolume, MountPath := "/run/lvm" },
          { Name := hostRunLock, MountPath := "/run/lock" },
          { Name := k.CSISocketDirVolume, MountPath := "/csi" },
          { Name := mountPointDirVolume, MountPath := "/var/lib/kubelet/pods",
            MountPropagation := some bidirectional },
          { Name := csiPathVolume, MountPath := "/var/lib/kubelet/plugins/kubernetes.io/csi",
            MountPropagation := some bidirectional },
          { Name := hostRootVolume, MountPath := "/hostroot",
            MountPropagation := some bidirectional } ] },
    { Name := "drivemgr",
      Image := driveMgrImage,
      ImagePullPolicy := driveMgrPullPolicy,
      Args :=
        [ "--loglevel=info",
          "--drivemgrendpoint=tcp://localhost:" ++ strconv.Itoa driveManagerPort,
          "--usenodeannotation=" ++ strconv.FormatBool k.UseNodeAnnotation ],
      Env :=
        [ { Name := "LOG_FORMAT", Value := "text" },
          { Name := "KUBE_NODE_NAME", ValueFrom := some
              { FieldRef := some { APIVersion := "v1", FieldPath := "spec.nodeName" } } } ],
      SecurityContext := some { Privileged := some true },
      VolumeMounts :=
        [ { Name := hostDevVolume, MountPath := "/dev" },
          { Name := hostHomeVolume, MountPath := "/host/home" },
          { Name := driveConfigVolume, MountPath := "/etc/config" } ] } ]

/-- The function `createNodeContainers`: the scan of the overrides, the two nil
checks, then the returned literal.  Every `x.Image` that is read through a nil
pointer ends the run. -/
def createNodeContainers (k : Externals) (csi : Deployment) : Option (List corev1.Container) := do
  let driveMgr := csi.Spec.Driver.Node.DriveMgr
  let node := csi.Spec.Driver.Node
  let testEnv := csi.Spec.Driver.Node.TestEnv
  let (lp, dr) ← scanSidecars csi.Spec.Driver.Node.Sidecars none none
  let lp := match lp with
    | none => constructSidecar livenessProbeSidecar csi.Spec.GlobalRegistry "v2.1.0" "Always"
    | some s => s
  let dr := match dr with
    | none => constructSidecar driverRegistrarSidecar csi.Spec.GlobalRegistry "v1.0.1-gke.0" "Always"
    | some s => s
  let lpImage ← constructImage testEnv lp.Image
  let lpPullPolicy ← pullPolicyOf lp.Image
  let drImage ← constructImage testEnv dr.Image
  let drPullPolicy ← pullPolicyOf dr.Image
  let nodeImage ← constructImage testEnv node.Image
  let nodePullPolicy ← pullPolicyOf node.Image
  let driveMgrImage ← constructImage testEnv driveMgr.Image
  let driveMgrPullPolicy ← pullPolicyOf driveMgr.Image
  pure (containersLiteral k lpImage lpPullPolicy drImage drPullPolicy
    nodeImage nodePullPolicy driveMgrImage driveMgrPullPolicy)

/-- The function `createNodeDaemonSet`. -/
def createNodeDaemonSet (k : Externals) (csi : Deployment) : Option v1.DaemonSet := do
  let namespace_ := k.GetNamespace csi
  let volumes := createNodeVolumes k
  let containers ← createNodeContainers k csi
  pure
    { ObjectMeta := { Name := nodeName k, Namespace := namespace_ },
      Spec :=
        { -- selector
          Selector := some { MatchLabels := [("app", nodeName k)] },
          -- template
          Template :=
            { ObjectMeta :=
                { Labels := [("app", nodeName k), ("app.kubernetes.io/name", k.CSIName)],
                  Annotations :=
                    [ ("prometheus.io/scrape", "true"),
                      ("prometheus.io/port", strconv.Itoa k.PrometheusPort),
                      ("prometheus.io/path", "/metrics") ] },
              Spec :=
                { Volumes := volumes,
                  Containers := containers,
                  TerminationGracePeriodSeconds := some k.TerminationGracePeriodSeconds,
                  NodeSelector := [],
                  ServiceAccountName := nodeServiceAccountName,
                  HostIPC := true } } } }

/-! ### The reconciler

The method `Node.Update` talks to the cluster through the daemon-set client of
one target namespace, and to a logger.  The client is a pair of operations on
an abstract cluster state; every call and every log line is recorded in order. -/

/-- The daemon-set client as `Update` uses it: the existence query
`isDaemonSetDeployed(dsClient, name)` and `dsClient.Create(ds)`, both for the
client of the given namespace. -/
structure DaemonSetClient (σ ε : Type) where
  isDaemonSetDeployed : String → String → σ → Except ε Bool × σ
  Create : String → v1.DaemonSet → σ → Except ε v1.DaemonSet × σ

/-- What `Update` does to the outside world, in program order. -/
inductive Event (ε : Type) where
  | isDaemonSetDeployed (namespace_ name : String)
  | Create (namespace_ : String) (ds : v1.DaemonSet)
  | LogError (err : ε) (msg : String)
  | LogInfo (msg : String)

/-- How a call of `Update` ends: it returns a Go `error` (nil is `none`), or
it panics on a nil dereference while the daemon set is assembled. -/
inductive Outcome (ε : Type) where
  | returned (err : Option ε)
  | panicked
deriving DecidableEq

/-- One run of `Update`. -/
structure Run (σ ε : Type) where
  outcome : Outcome ε
  events : List (Event ε)
  state : σ

/-- Whether an event is a create submission. -/
def Event.isCreate {ε : Type} : Event ε → Bool
  | Event.Create _ _ => true
  | _ => false

/-- Number of create submissions in a trace. -/
def createCalls {ε : Type} (es : List (Event ε)) : Nat :=
  (es.filter Event.isCreate).length

/-- The method `Node.Update`. -/
def Update {σ ε : Type} (k : Externals) (dsClient : DaemonSetClient σ ε)
    (csi : Deployment) (s : σ) : Run σ ε :=
  let namespace_ := k.GetNamespace csi
  match dsClient.isDaemonSetDeployed namespace_ (nodeName k) s with
  | (Except.error err, s1) =>
    { outcome := Outcome.returned (some err),
      events := [Event.isDaemonSetDeployed namespace_ (nodeName k),
                 Event.LogError err "Failed to get daemon set"],
      state := s1 }
  | (Except.ok true, s1) =>
    { outcome := Outcome.returned none,
      events := [Event.isDaemonSetDeployed namespace_ (nodeName k),
                 Event.LogInfo "Daemon set already deployed"],
      state := s1 }
  | (Except.ok false, s1) =>
    -- create daemonset
    match createNodeDaemonSet k csi with
    | none =>
      { outcome := Outcome.panicked,
        events := [Event.isDaemonSetDeployed namespace_ (nodeName k)],
        state := s1 }
    | some ds =>
      match dsClient.Create namespace_ ds s1 with
      | (Except.error err, s2) =>
        { outcome := Outcome.returned (some err),
          events := [Event.isDaemonSetDeployed namespace_ (nodeName k),
                     Event.Create namespace_ ds,
                     Event.LogError err "Failed to create daemon set"],
          state := s2 }
      | (Except.ok _, s2) =>
        { outcome := Outcome.returned none,
          events := [Event.isDaemonSetDeployed namespace_ (nodeName k),
                     Event.Create namespace_ ds,
                     Event.LogInfo "Daemon set created successfully"],
          state := s2 }

/-! ### A model cluster

The cluster state is the list of stored daemon sets.  The existence query
reports found exactly when an object with the queried name is stored under the
queried namespace; a create of a name that is free there succeeds and stores
the object, a create of a taken name is rejected as a conflict. -/

/-- Errors of the model cluster. -/
inductive ApiError where
  | AlreadyExists (namespace_ name : String)
deriving DecidableEq, Repr

/-- Whether a daemon set `name` is stored in `namespace_`. -/
def ModelCluster.has (s : List v1.DaemonSet) (namespace_ name : String) : Bool :=
  s.any (fun d => d.ObjectMeta.Namespace == namespace_ && d.ObjectMeta.Name == name)

/-- The client of the model cluster. -/
def ModelCluster.client : DaemonSetClient (List v1.DaemonSet) ApiError where
  isDaemonSetDeployed := fun namespace_ name s => (Except.ok (ModelCluster.has s namespace_ name), s)
  Create := fun namespace_ ds s =>
    let stored : v1.DaemonSet :=
      { ds with ObjectMeta := { ds.ObjectMeta with Namespace := namespace_ } }
    if ModelCluster.has s namespace_ ds.ObjectMeta.Name then
      (Except.error (ApiError.AlreadyExists namespace_ ds.ObjectMeta.Name), s)
    else
      (Except.ok stored, stored :: s)

/-! ### Reading the result of `createNodeContainers` -/

/-- The sidecar descriptor `lp` that `createNodeContainers` holds after its
two nil checks, when the scan of the overrides completes. -/
def resolvedLivenessProbe (csi : Deployment) : Option Sidecar :=
  (scanSidecars csi.Spec.Driver.Node.Sidecars none none).map fun r =>
    match r.1 with
    | none => constructSidecar livenessProbeSidecar csi.Spec.GlobalRegistry "v2.1.0" "Always"
    | some s => s

/-- The sidecar descriptor `dr` that `createNodeContainers` holds after its
two nil checks, when the scan of the overrides completes. -/
def resolvedDriverRegistrar (csi : Deployment) : Option Sidecar :=
  (scanSidecars csi.Spec.Driver.Node.Sidecars none none).map fun r =>
    match r.2 with
    | none => constructSidecar driverRegistrarSidecar csi.Spec.GlobalRegistry "v1.0.1-gke.0" "Always"
    | some s => s

/-- The externals as the operator declares them, for concrete runs. -/
def sampleExternals : Externals where
  CSIName := "csi-baremetal"
  LogsVolume := "logs"
  CSISocketDirVolume := "csi-socket-dir"
  LivenessPort := "liveness-port"
  PrometheusPort := 8787
  TerminationGracePeriodSeconds := 10
  UseNodeAnnotation := false
  GetNamespace := fun csi => if csi.Namespace = "" then "default" else csi.Namespace

/-! ### Concrete requests -/

/-- The scenario of the specification: no overrides, `testEnv = false`, global
registry `reg.example.com`, driver image `node:1.2.3` with no registry of its
own. -/
def scenarioRequest : Deployment :=
  { Name := "csi-baremetal",
    Namespace := "storage",
    Spec :=
      { GlobalRegistry := "reg.example.com",
        Driver :=
          { Node :=
              { Image := some { Name := "node", Tag := "1.2.3", PullPolicy := "IfNotPresent" },
                DriveMgr :=
                  { Image := some
                      { Name := "drivemgr", Registry := "reg.example.com", Tag := "1.2.3",
                        PullPolicy := "IfNotPresent" } },
                Sidecars := [],
                TestEnv := false } } } }

def lpOverrideA : Sidecar :=
  { Name := "liveness-probe",
    Image := some { Name := "lp", Registry := "a", Tag := "v1", PullPolicy := "Never" } }

def lpOverrideB : Sidecar :=
  { Name := "liveness-probe",
    Image := some { Name := "lp", Registry := "b", Tag := "v2", PullPolicy := "Always" } }

def drOverrideA : Sidecar :=
  { Name := "csi-node-driver-registrar",
    Image := some { Name := "dr", Registry := "a", Tag := "v3", PullPolicy := "Never" } }

def drOverrideB : Sidecar :=
  { Name := "csi-node-driver-registrar",
    Image := some { Name := "dr", Registry := "b", Tag := "v4", PullPolicy := "IfNotPresent" } }

/-- A request with the given override list and test-environment flag; the
rest is as in `scenarioRequest`. -/
def requestWith (sidecars : List (Option Sidecar)) (testEnv : Bool) : Deployment :=
  { scenarioRequest with
    Spec :=
      { scenarioRequest.Spec with
        Driver :=
          { Node :=
              { scenarioRequest.Spec.Driver.Node with
                Sidecars := sidecars, TestEnv := testEnv } } } }

/-- Two overrides for each well-known name. -/
def duplicateOverridesRequest : Deployment :=
  requestWith [some lpOverrideA, some drOverrideA, some lpOverrideB, some drOverrideB] false

/-- One override for each well-known name, and one for an unknown name. -/
def singleOverridesRequest : Deployment :=
  requestWith [some { Name := "other" }, some lpOverrideA, some drOverrideB] false

/-- A cluster that already stores the node daemon set of `scenarioRequest`. -/
def deployedCluster : List v1.DaemonSet :=
  [ { ObjectMeta := { Name := "csi-baremetal-node", Namespace := "storage" } } ]

/-- A stateless client that answers every query with `query` and every create
with `create`; it stands for a cluster that other actors change between the
two calls, or whose API is failing. -/
def scriptedClient {ε : Type} (query : Except ε Bool) (create : Option ε) :
    DaemonSetClient Unit ε where
  isDaemonSetDeployed := fun _ _ s => (query, s)
  Create := fun _ ds s =>
    match create with
    | some e => (Except.error e, s)
    | none => (Except.ok ds, s)

/-- The scenario request with the registry moved from the global field to the
driver image descriptor. -/
def ownRegistryRequest : Deployment :=
  { Name := "csi-baremetal",
    Namespace := "storage",
    Spec :=
      { GlobalRegistry := "",
        Driver :=
          { Node :=
              { Image := some
                  { Name := "node", Registry := "reg.example.com", Tag := "1.2.3",
                    PullPolicy := "IfNotPresent" },
                DriveMgr :=
                  { Image := some
                      { Name := "drivemgr", Registry := "reg.example.com", Tag := "1.2.3",
                        PullPolicy := "IfNotPresent" } },
                Sidecars := [],
                TestEnv := false } } } }

/-! ### Vocabulary of the properties -/

/-- A volume backed by a host path or by an empty directory. -/
def isHostPathOrEmptyDir (v : corev1.Volume) : Bool :=
  v.VolumeSource.HostPath.isSome || v.VolumeSource.EmptyDir.isSome

/-- A volume backed by a config map. -/
def isConfigMap (v : corev1.Volume) : Bool :=
  v.VolumeSource.ConfigMap.isSome

/-- The volume names of the `const` block of `node.go`. -/
def declaredVolumeNames : List String :=
  [registrationDirVolume, hostDevVolume, hostHomeVolume, hostSysVolume, hostRootVolume,
   hostRunUdevVolume, hostRunLVMVolume, hostRunLock, mountPointDirVolume, csiPathVolume,
   driveConfigVolume]

/-- The request `csi` with its override list replaced. -/
def setSidecars (csi : Deployment) (sidecars : List (Option Sidecar)) : Deployment :=
  { csi with
    Spec :=
      { csi.Spec with
        Driver :=
          { csi.Spec.Driver with
            Node := { csi.Spec.Driver.Node with Sidecars := sidecars } } } }

/-- The precondition under which `createNodeContainers` reads no nil pointer:
the driver image and the drive-manager image are set, no entry of the override
list is nil, and the overrides that the scan leaves in `lp` and `dr` (the
selected ones) have their image set. -/
def NilSafe (csi : Deployment) : Prop :=
  csi.Spec.Driver.Node.Image ≠ none ∧
  csi.Spec.Driver.Node.DriveMgr.Image ≠ none ∧
  (∀ v ∈ csi.Spec.Driver.Node.Sidecars, v ≠ none) ∧
  (∀ (r : Option Sidecar × Option Sidecar) (s : Sidecar),
    scanSidecars csi.Spec.Driver.Node.Sidecars none none = some r →
    r.1 = some s ∨ r.2 = some s → s.Image ≠ none)

/-- The scenario request with one override, named "liveness-probe", whose image
pointer is nil. -/
def nilImageOverrideRequest : Deployment :=
  requestWith [some { Name := "liveness-probe", Image := none }] false

/-- An error message mentions a piece of text when the text occurs in it. -/
def mentions (err info : String) : Prop := info.data <:+: err.data

/-- An argument sets a flag when it starts with the text of the flag, such as
`--drivemgrendpoint=`. -/
def hasFlag (flag arg : String) : Bool := flag.data.isPrefixOf arg.data

/-- The state of a left-to-right pass over an argument that looks for
references `$(NAME)`: in plain text, right after a `$`, or inside the
parentheses with the characters of the name read so far (last one first). -/
inductive RefScan where
  | text
  | dollar
  | name (acc : List Char)

/-- The names referenced in the rest of an argument.  A `$` followed by `(`
opens a reference that the next `)` closes; a `$` followed by anything else
(a second `$` included) is plain text, as is a reference left open at the end
of the argument. -/
def scanRefs : RefScan → List Char → List String
  | _, [] => []
  | RefScan.text, c :: cs =>
    if c = '$' then scanRefs RefScan.dollar cs else scanRefs RefScan.text cs
  | RefScan.dollar, c :: cs =>
    if c = '(' then scanRefs (RefScan.name []) cs else scanRefs RefScan.text cs
  | RefScan.name acc, c :: cs =>
    if c = ')' then String.mk acc.reverse :: scanRefs RefScan.text cs
    else scanRefs (RefScan.name (c :: acc)) cs

/-- The variable names that an argument references as `$(NAME)`, in order. -/
def varRefs (arg : String) : List String := scanRefs RefScan.text arg.data

end pkg

/-! ## Lemmas on the embedding -/

namespace pkg

open csibaremetalv1 components

theorem livenessProbeSidecar_ne_driverRegistrarSidecar :
    livenessProbeSidecar ≠ driverRegistrarSidecar := by decide

/-- For a non-nil image `constructImage` returns one of its two strings. -/
theorem constructImage_some (isTest : Bool) (image : Image) :
    constructImage isTest (some image) =
      some (if isTest then image.Name ++ ":" ++ image.Tag
            else image.Registry ++ "/" ++ image.Name ++ ":" ++ image.Tag) := by
  cases isTest <;> simp [constructImage]

/-- The scan of a concatenation is the scan of the second list started from
what the first one leaves. -/
theorem scanSidecars_append (l₁ l₂ : List (Option Sidecar)) (lp dr : Option Sidecar) :
    scanSidecars (l₁ ++ l₂) lp dr =
      (scanSidecars l₁ lp dr).bind (fun r => scanSidecars l₂ r.1 r.2) := by
  induction l₁ generalizing lp dr with
  | nil => simp [scanSidecars]
  | cons v rest ih =>
    cases v with
    | none => simp [scanSidecars]
    | some s =>
      simp only [List.cons_append, scanSidecars]
      split
      · exact ih _ _
      · split
        · exact ih _ _
        · exact ih _ _

/-- A completed scan leaves `lp` alone when no entry carries the liveness-probe
name. -/
theorem scanSidecars_fst_of_no_match (l : List (Option Sidecar)) (lp dr : Option Sidecar)
    (r : Option Sidecar × Option Sidecar)
    (hno : ∀ s : Sidecar, some s ∈ l → s.Name ≠ livenessProbeSidecar)
    (h : scanSidecars l lp dr = some r) : r.1 = lp := by
  induction l generalizing lp dr with
  | nil => simp [scanSidecars] at h; rw [← h]
  | cons v rest ih =>
    cases v with
    | none => simp [scanSidecars] at h
    | some s =>
      have hs : s.Name ≠ livenessProbeSidecar := hno s (List.mem_cons_self _ _)
      have hrest : ∀ t : Sidecar, some t ∈ rest → t.Name ≠ livenessProbeSidecar :=
        fun t ht => hno t (List.mem_cons_of_mem _ ht)
      simp only [scanSidecars, if_neg hs] at h
      split at h
      · exact ih _ _ hrest h
      · exact ih _ _ hrest h

/-- A completed scan leaves `dr` alone when no entry carries the registrar
name. -/
theorem scanSidecars_snd_of_no_match (l : List (Option Sidecar)) (lp dr : Option Sidecar)
    (r : Option Sidecar × Option Sidecar)
    (hno : ∀ s : Sidecar, some s ∈ l → s.Name ≠ driverRegistrarSidecar)
    (h : scanSidecars l lp dr = some r) : r.2 = dr := by
  induction l generalizing lp dr with
  | nil => simp [scanSidecars] at h; rw [← h]
  | cons v rest ih =>
    cases v with
    | none => simp [scanSidecars] at h
    | some s =>
      have hs : s.Name ≠ driverRegistrarSidecar := hno s (List.mem_cons_self _ _)
      have hrest : ∀ t : Sidecar, some t ∈ rest → t.Name ≠ driverRegistrarSidecar :=
        fun t ht => hno t (List.mem_cons_of_mem _ ht)
      simp only [scanSidecars, if_neg hs] at h
      split at h
      · exact ih _ _ hrest h
      · exact ih _ _ hrest h

/-- A completed scan ends with `lp` pointing at the last entry that carries
the liveness-probe name. -/
theorem scanSidecars_fst_of_last (pre post : List (Option Sidecar)) (s : Sidecar)
    (lp dr : Option Sidecar) (r : Option Sidecar × Option Sidecar)
    (hs : s.Name = livenessProbeSidecar)
    (hpost : ∀ t : Sidecar, some t ∈ post → t.Name ≠ livenessProbeSidecar)
    (h : scanSidecars (pre ++ some s :: post) lp dr = some r) : r.1 = some s := by
  rw [scanSidecars_append] at h
  obtain ⟨r₁, -, h₂⟩ := Option.bind_eq_some.mp h
  simp only [scanSidecars, if_pos hs] at h₂
  exact scanSidecars_fst_of_no_match post _ _ r hpost h₂

/-- A completed scan ends with `dr` pointing at the last entry that carries
the registrar name. -/
theorem scanSidecars_snd_of_last (pre post : List (Option Sidecar)) (s : Sidecar)
    (lp dr : Option Sidecar) (r : Option Sidecar × Option Sidecar)
    (hs : s.Name = driverRegistrarSidecar)
    (hpost : ∀ t : Sidecar, some t ∈ post → t.Name ≠ driverRegistrarSidecar)
    (h : scanSidecars (pre ++ some s :: post) lp dr = some r) : r.2 = some s := by
  rw [scanSidecars_append] at h
  obtain ⟨r₁, -, h₂⟩ := Option.bind_eq_some.mp h
  have hne : s.Name ≠ livenessProbeSidecar := by
    rw [hs]; exact fun e => livenessProbeSidecar_ne_driverRegistrarSidecar e.symm
  simp only [scanSidecars, if_neg hne, if_pos hs] at h₂
  exact scanSidecars_snd_of_no_match post _ _ r hpost h₂

/-- What a returned container list is made of: the two resolved sidecars, the
node image and the drive-manager image, all with their image pointer set. -/
theorem createNodeContainers_eq_some (k : Externals) (csi : Deployment)
    (cs : List corev1.Container) (h : createNodeContainers k csi = some cs) :
    ∃ lp dr : Sidecar, ∃ lpi dri ni di : Image, ∃ a₁ a₂ a₃ a₄ : String,
      resolvedLivenessProbe csi = some lp ∧ resolvedDriverRegistrar csi = some dr ∧
      lp.Image = some lpi ∧ dr.Image = some dri ∧
      csi.Spec.Driver.Node.Image = some ni ∧
      csi.Spec.Driver.Node.DriveMgr.Image = some di ∧
      constructImage csi.Spec.Driver.Node.TestEnv (some lpi) = some a₁ ∧
      constructImage csi.Spec.Driver.Node.TestEnv (some dri) = some a₂ ∧
      constructImage csi.Spec.Driver.Node.TestEnv (some ni) = some a₃ ∧
      constructImage csi.Spec.Driver.Node.TestEnv (some di) = some a₄ ∧
      cs = containersLiteral k a₁ lpi.PullPolicy a₂ dri.PullPolicy
             a₃ ni.PullPolicy a₄ di.PullPolicy := by
  unfold createNodeContainers at h
  simp only [Option.bind_eq_bind, Option.bind_eq_some, Option.pure_def, Option.some.injEq,
    pullPolicyOf, Option.map_eq_some'] at h
  obtain ⟨⟨lp0, dr0⟩, hscan, a₁, h1, p₁, ⟨lpi, hlpi, rfl⟩, a₂, h2, p₂, ⟨dri, hdri, rfl⟩,
    a₃, h3, p₃, ⟨ni, hni, rfl⟩, a₄, h4, p₄, ⟨di, hdi, rfl⟩, rfl⟩ := h
  refine ⟨_, _, lpi, dri, ni, di, a₁, a₂, a₃, a₄, ?_, ?_, hlpi, hdri, hni, hdi, ?_, ?_, ?_, ?_, rfl⟩
  · simp [resolvedLivenessProbe, hscan]
  · simp [resolvedDriverRegistrar, hscan]
  · rw [← hlpi]; exact h1
  · rw [← hdri]; exact h2
  · rw [← hni]; exact h3
  · rw [← hdi]; exact h4

/-- The scan completes when no entry of the list is nil. -/
theorem scanSidecars_isSome (l : List (Option Sidecar)) (lp dr : Option Sidecar)
    (hl : ∀ v ∈ l, v ≠ none) : (scanSidecars l lp dr).isSome = true := by
  induction l generalizing lp dr with
  | nil => simp [scanSidecars]
  | cons v rest ih =>
    have hrest : ∀ w ∈ rest, w ≠ none := fun w hw => hl w (List.mem_cons_of_mem _ hw)
    cases v with
    | none => exact absurd rfl (hl none (List.mem_cons_self _ _))
    | some s =>
      simp only [scanSidecars]
      split
      · exact ih _ _ hrest
      · split
        · exact ih _ _ hrest
        · exact ih _ _ hrest

/-- The container list is returned as soon as the scan completes and the four
image pointers that are read are set. -/
theorem createNodeContainers_isSome (k : Externals) (csi : Deployment) (lp dr : Sidecar)
    (lpi dri ni di : Image)
    (hlp : resolvedLivenessProbe csi = some lp) (hdr : resolvedDriverRegistrar csi = some dr)
    (hlpi : lp.Image = some lpi) (hdri : dr.Image = some dri)
    (hni : csi.Spec.Driver.Node.Image = some ni)
    (hdi : csi.Spec.Driver.Node.DriveMgr.Image = some di) :
    (createNodeContainers k csi).isSome = true := by
  simp only [resolvedLivenessProbe, Option.map_eq_some'] at hlp
  simp only [resolvedDriverRegistrar, Option.map_eq_some'] at hdr
  obtain ⟨r, hscan, hr⟩ := hlp
  obtain ⟨r₂, hscan₂, hr₂⟩ := hdr
  rw [hscan] at hscan₂
  cases hscan₂
  obtain ⟨lp0, dr0⟩ := r
  simp only at hr hr₂
  unfold createNodeContainers
  simp [hscan, hr, hr₂, hlpi, hdri, hni, hdi, constructImage_some, pullPolicyOf]

/-! ## Properties of the node daemon set and of its reconciler -/

/-- C1 (as stated, refuted): with two overrides for each well-known name the
containers do not take image and pull policy from the first override of their
name: the liveness-probe container gets `b/lp:v2` and `Always` where the first
liveness-probe override says `a/lp:v1` and `Never`, and the registrar container
gets `b/dr:v4` where the first registrar override says `a/dr:v3`. -/
theorem createNodeContainers_first_match_counterexample :
    duplicateOverridesRequest.Spec.Driver.Node.Sidecars =
        [some lpOverrideA, some drOverrideA, some lpOverrideB, some drOverrideB] ∧
      lpOverrideA.Name = "liveness-probe" ∧ lpOverrideB.Name = "liveness-probe" ∧
      drOverrideA.Name = "csi-node-driver-registrar" ∧
      drOverrideB.Name = "csi-node-driver-registrar" ∧
      constructImage false lpOverrideA.Image = some "a/lp:v1" ∧
      pullPolicyOf lpOverrideA.Image = some "Never" ∧
      constructImage false drOverrideA.Image = some "a/dr:v3" ∧
      pullPolicyOf drOverrideA.Image = some "Never" ∧
      ∃ cs, createNodeContainers sampleExternals duplicateOverridesRequest = some cs ∧
        cs[0]?.map (fun c => (c.Image, c.ImagePullPolicy)) = some ("b/lp:v2", "Always") ∧
        cs[1]?.map (fun c => (c.Image, c.ImagePullPolicy)) = some ("b/dr:v4", "IfNotPresent") := by
  refine ⟨rfl, rfl, rfl, rfl, rfl, by decide, by decide, by decide, by decide,
    containersLiteral sampleExternals "b/lp:v2" "Always" "b/dr:v4" "IfNotPresent"
      "/node:1.2.3" "IfNotPresent" "reg.example.com/drivemgr:1.2.3" "IfNotPresent",
    by decide, by decide, by decide⟩

/-- C1 (amended): override resolution is last-match.  Whenever
`createNodeContainers` returns and `s` is the last entry of the override list
named "liveness-probe" (respectively "csi-node-driver-registrar"), the
liveness-probe (respectively registrar) container takes its image and pull
policy from `s`, however many entries of that name come before it. -/
theorem createNodeContainers_last_match (k : Externals) (csi : Deployment)
    (cs : List corev1.Container) (pre post : List (Option Sidecar)) (s : Sidecar)
    (hcs : createNodeContainers k csi = some cs)
    (hl : csi.Spec.Driver.Node.Sidecars = pre ++ some s :: post) :
    (s.Name = livenessProbeSidecar →
      (∀ t : Sidecar, some t ∈ post → t.Name ≠ livenessProbeSidecar) →
        cs[0]?.map (fun c => c.Image) = constructImage csi.Spec.Driver.Node.TestEnv s.Image ∧
        cs[0]?.map (fun c => c.ImagePullPolicy) = pullPolicyOf s.Image) ∧
    (s.Name = driverRegistrarSidecar →
      (∀ t : Sidecar, some t ∈ post → t.Name ≠ driverRegistrarSidecar) →
        cs[1]?.map (fun c => c.Image) = constructImage csi.Spec.Driver.Node.TestEnv s.Image ∧
        cs[1]?.map (fun c => c.ImagePullPolicy) = pullPolicyOf s.Image) := by
  obtain ⟨lp, dr, lpi, dri, ni, di, a₁, a₂, a₃, a₄, hlp, hdr, hlpi, hdri, -, -, h1, h2, -, -, rfl⟩ :=
    createNodeContainers_eq_some k csi cs hcs
  constructor
  · intro hs hpost
    simp only [resolvedLivenessProbe, Option.map_eq_some'] at hlp
    obtain ⟨r, hscan, hr⟩ := hlp
    rw [hl] at hscan
    have h := scanSidecars_fst_of_last pre post s none none r hs hpost hscan
    rw [h] at hr
    subst hr
    rw [hlpi, h1]
    simp [containersLiteral, pullPolicyOf]
  · intro hs hpost
    simp only [resolvedDriverRegistrar, Option.map_eq_some'] at hdr
    obtain ⟨r, hscan, hr⟩ := hdr
    rw [hl] at hscan
    have h := scanSidecars_snd_of_last pre post s none none r hs hpost hscan
    rw [h] at hr
    subst hr
    rw [hdri, h2]
    simp [containersLiteral, pullPolicyOf]

/-- C1 (amended), at the request with two overrides per name: both containers
follow the second override of their name. -/
theorem createNodeContainers_last_match_witness :
    ∃ cs, createNodeContainers sampleExternals duplicateOverridesRequest = some cs ∧
      (cs[0]?.map (fun c => c.Image) = constructImage false lpOverrideB.Image ∧
        cs[0]?.map (fun c => c.ImagePullPolicy) = pullPolicyOf lpOverrideB.Image) ∧
      (cs[1]?.map (fun c => c.Image) = constructImage false drOverrideB.Image ∧
        cs[1]?.map (fun c => c.ImagePullPolicy) = pullPolicyOf drOverrideB.Image) :=
  have hcs : createNodeContainers sampleExternals duplicateOverridesRequest =
      some (containersLiteral sampleExternals "b/lp:v2" "Always" "b/dr:v4" "IfNotPresent"
        "/node:1.2.3" "IfNotPresent" "reg.example.com/drivemgr:1.2.3" "IfNotPresent") := by
    decide
  ⟨_, hcs,
    (createNodeContainers_last_match sampleExternals duplicateOverridesRequest _
      [some lpOverrideA, some drOverrideA] [some drOverrideB] lpOverrideB hcs rfl).1
      (by decide) (by intro t ht; simp at ht; subst ht; decide),
    (createNodeContainers_last_match sampleExternals duplicateOverridesRequest _
      [some lpOverrideA, some drOverrideA, some lpOverrideB] [] drOverrideB hcs rfl).2
      (by decide) (by intro t ht; simp at ht)⟩

/-- C2: idempotence of `Update` over the model cluster.  From a cluster that
does not store the node daemon set, and for a request from which the daemon set
can be assembled, the first call returns nil after exactly one create, the
second call returns nil without a create and leaves the cluster as it is: one
create in total. -/
theorem Update_idempotent (k : Externals) (csi : Deployment) (s : List v1.DaemonSet)
    (ds : v1.DaemonSet) (hds : createNodeDaemonSet k csi = some ds)
    (habs : ModelCluster.has s (k.GetNamespace csi) (nodeName k) = false) :
    (Update k ModelCluster.client csi s).outcome = Outcome.returned none ∧
    createCalls (Update k ModelCluster.client csi s).events = 1 ∧
    (Update k ModelCluster.client csi
      (Update k ModelCluster.client csi s).state).outcome = Outcome.returned none ∧
    createCalls (Update k ModelCluster.client csi
      (Update k ModelCluster.client csi s).state).events = 0 ∧
    createCalls ((Update k ModelCluster.client csi s).events ++
      (Update k ModelCluster.client csi
        (Update k ModelCluster.client csi s).state).events) = 1 ∧
    (Update k ModelCluster.client csi
      (Update k ModelCluster.client csi s).state).state =
      (Update k ModelCluster.client csi s).state := by
  have hname : ds.ObjectMeta.Name = nodeName k := by
    unfold createNodeDaemonSet at hds
    simp only [Option.bind_eq_bind, Option.bind_eq_some, Option.pure_def, Option.some.injEq] at hds
    obtain ⟨cs, -, rfl⟩ := hds
    rfl
  have hfirst : Update k ModelCluster.client csi s =
      { outcome := Outcome.returned none,
        events := [Event.isDaemonSetDeployed (k.GetNamespace csi) (nodeName k),
                   Event.Create (k.GetNamespace csi) ds,
                   Event.LogInfo "Daemon set created successfully"],
        state := { ds with ObjectMeta :=
          { ds.ObjectMeta with Namespace := k.GetNamespace csi } } :: s } := by
    simp [Update, ModelCluster.client, habs, hds, hname]
  have hhas : ModelCluster.has
      ({ ds with ObjectMeta := { ds.ObjectMeta with Namespace := k.GetNamespace csi } } :: s)
      (k.GetNamespace csi) (nodeName k) = true := by
    simp [ModelCluster.has, hname]
  have hsecond : Update k ModelCluster.client csi
      ({ ds with ObjectMeta := { ds.ObjectMeta with Namespace := k.GetNamespace csi } } :: s) =
      { outcome := Outcome.returned none,
        events := [Event.isDaemonSetDeployed (k.GetNamespace csi) (nodeName k),
                   Event.LogInfo "Daemon set already deployed"],
        state := { ds with ObjectMeta :=
          { ds.ObjectMeta with Namespace := k.GetNamespace csi } } :: s } := by
    simp [Update, ModelCluster.client, hhas]
  rw [hfirst]
  simp only [hsecond]
  simp [createCalls, Event.isCreate]

/-- C2, from the empty cluster with the scenario request. -/
theorem Update_idempotent_witness :
    (Update sampleExternals ModelCluster.client scenarioRequest []).outcome =
      Outcome.returned none ∧
    createCalls ((Update sampleExternals ModelCluster.client scenarioRequest []).events ++
      (Update sampleExternals ModelCluster.client scenarioRequest
        (Update sampleExternals ModelCluster.client scenarioRequest []).state).events) = 1 :=
  have h := Update_idempotent sampleExternals scenarioRequest []
    ((createNodeDaemonSet sampleExternals scenarioRequest).getD {}) (by decide) (by decide)
  ⟨h.1, h.2.2.2.2.1⟩

/-- C3: when the existence query reports the daemon set as deployed, `Update`
returns nil and submits no create, whatever the request holds (nil image
pointers included: the request is not read beyond its namespace). -/
theorem Update_already_deployed {σ ε : Type} (k : Externals) (c : DaemonSetClient σ ε)
    (csi : Deployment) (s s₁ : σ)
    (hq : c.isDaemonSetDeployed (k.GetNamespace csi) (nodeName k) s = (Except.ok true, s₁)) :
    (Update k c csi s).outcome = Outcome.returned none ∧
    createCalls (Update k c csi s).events = 0 ∧
    (Update k c csi s).state = s₁ := by
  simp [Update, hq, createCalls, Event.isCreate]

/-- C3, on the cluster that already stores the daemon set, with a request whose
image pointers are all nil. -/
theorem Update_already_deployed_witness :
    (Update sampleExternals ModelCluster.client
        { Namespace := "storage" } deployedCluster).outcome = Outcome.returned none ∧
    createCalls (Update sampleExternals ModelCluster.client
        { Namespace := "storage" } deployedCluster).events = 0 ∧
    (Update sampleExternals ModelCluster.client
        { Namespace := "storage" } deployedCluster).state = deployedCluster :=
  Update_already_deployed sampleExternals ModelCluster.client { Namespace := "storage" }
    deployedCluster deployedCluster (by rfl)

/-- C4: `Update` hands back the client error untouched and does not retry.  If
the existence query fails with `e`, `Update` returns `e` after that one query
and no create.  If the query reports absent, the daemon set is assembled and
the create fails with `e`, `Update` returns `e` after one query and exactly one
create. -/
theorem Update_propagates_errors {σ ε : Type} (k : Externals) (c : DaemonSetClient σ ε)
    (csi : Deployment) (s : σ) :
    (∀ (e : ε) (s₁ : σ),
      c.isDaemonSetDeployed (k.GetNamespace csi) (nodeName k) s = (Except.error e, s₁) →
        (Update k c csi s).outcome = Outcome.returned (some e) ∧
        createCalls (Update k c csi s).events = 0 ∧
        (Update k c csi s).events =
          [Event.isDaemonSetDeployed (k.GetNamespace csi) (nodeName k),
           Event.LogError e "Failed to get daemon set"]) ∧
    (∀ (e : ε) (ds : v1.DaemonSet) (s₁ s₂ : σ),
      c.isDaemonSetDeployed (k.GetNamespace csi) (nodeName k) s = (Except.ok false, s₁) →
      createNodeDaemonSet k csi = some ds →
      c.Create (k.GetNamespace csi) ds s₁ = (Except.error e, s₂) →
        (Update k c csi s).outcome = Outcome.returned (some e) ∧
        createCalls (Update k c csi s).events = 1 ∧
        (Update k c csi s).events =
          [Event.isDaemonSetDeployed (k.GetNamespace csi) (nodeName k),
           Event.Create (k.GetNamespace csi) ds,
           Event.LogError e "Failed to create daemon set"]) := by
  constructor
  · intro e s₁ hq
    simp [Update, hq, createCalls, Event.isCreate]
  · intro e ds s₁ s₂ hq hds hc
    simp [Update, hq, hds, hc, createCalls, Event.isCreate]

/-- C4, on scripted clients: a failing query, and an absent answer followed by
a create that is rejected as a conflict. -/
theorem Update_propagates_errors_witness :
    ((Update sampleExternals
        (scriptedClient (Except.error (ApiError.AlreadyExists "q" "q")) none)
        scenarioRequest ()).outcome =
          Outcome.returned (some (ApiError.AlreadyExists "q" "q")) ∧
      createCalls (Update sampleExternals
        (scriptedClient (Except.error (ApiError.AlreadyExists "q" "q")) none)
        scenarioRequest ()).events = 0) ∧
    ((Update sampleExternals
        (scriptedClient (Except.ok false) (some (ApiError.AlreadyExists "storage" "csi-baremetal-node")))
        scenarioRequest ()).outcome =
          Outcome.returned (some (ApiError.AlreadyExists "storage" "csi-baremetal-node")) ∧
      createCalls (Update sampleExternals
        (scriptedClient (Except.ok false) (some (ApiError.AlreadyExists "storage" "csi-baremetal-node")))
        scenarioRequest ()).events = 1) :=
  have h₁ := (Update_propagates_errors sampleExternals
    (scriptedClient (Except.error (ApiError.AlreadyExists "q" "q")) none)
    scenarioRequest ()).1 (ApiError.AlreadyExists "q" "q") () rfl
  have h₂ := (Update_propagates_errors sampleExternals
    (scriptedClient (Except.ok false) (some (ApiError.AlreadyExists "storage" "csi-baremetal-node")))
    scenarioRequest ()).2 (ApiError.AlreadyExists "storage" "csi-baremetal-node")
    ((createNodeDaemonSet sampleExternals scenarioRequest).getD {}) () () rfl (by decide) rfl
  ⟨⟨h₁.1, h₁.2.1⟩, ⟨h₂.1, h₂.2.1⟩⟩

/-- C5 (as stated, refuted): in the scenario of the specification (global
registry `reg.example.com`, `testEnv = false`, driver image `node:1.2.3`) the
main driver container does not get `reg.example.com/node:1.2.3`: the global
registry is not read for it, and with no registry in the descriptor the image
is `/node:1.2.3`. -/
theorem createNodeContainers_global_registry_counterexample :
    scenarioRequest.Spec.GlobalRegistry = "reg.example.com" ∧
    scenarioRequest.Spec.Driver.Node.TestEnv = false ∧
    scenarioRequest.Spec.Driver.Node.Image.map (fun i => (i.Name, i.Tag)) =
      some ("node", "1.2.3") ∧
    ∃ cs, createNodeContainers sampleExternals scenarioRequest = some cs ∧
      cs[2]?.map (fun c => c.Image) = some "/node:1.2.3" ∧
      cs[2]?.map (fun c => c.Image) ≠ some "reg.example.com/node:1.2.3" :=
  ⟨rfl, rfl, by decide,
    containersLiteral sampleExternals "reg.example.com/liveness-probe:v2.1.0" "Always"
      "reg.example.com/csi-node-driver-registrar:v1.0.1-gke.0" "Always"
      "/node:1.2.3" "IfNotPresent" "reg.example.com/drivemgr:1.2.3" "IfNotPresent",
    by decide, by decide, by decide⟩

/-- C5 (amended): with `testEnv = false` the main driver container (the third
one) has the image `R/N:T` where `R`, `N` and `T` are the registry, name and
tag of the driver image descriptor itself; the global registry plays no part. -/
theorem createNodeContainers_driver_image (k : Externals) (csi : Deployment)
    (cs : List corev1.Container) (img : Image)
    (hcs : createNodeContainers k csi = some cs)
    (htest : csi.Spec.Driver.Node.TestEnv = false)
    (himg : csi.Spec.Driver.Node.Image = some img) :
    cs[2]?.map (fun c => c.Image) =
      some (img.Registry ++ "/" ++ img.Name ++ ":" ++ img.Tag) := by
  obtain ⟨lp, dr, lpi, dri, ni, di, a₁, a₂, a₃, a₄, -, -, -, -, hni, -, -, -, h3, -, rfl⟩ :=
    createNodeContainers_eq_some k csi cs hcs
  rw [himg] at hni
  cases hni
  rw [htest, constructImage_some] at h3
  simp only [Bool.false_eq_true, if_false, Option.some.injEq] at h3
  simp [containersLiteral, h3]

/-- C5 (amended), at the instance of the specification: descriptor registry
`reg.example.com`, name `node`, tag `1.2.3`, and an empty global registry. -/
theorem createNodeContainers_driver_image_witness :
    ownRegistryRequest.Spec.GlobalRegistry = "" ∧
    ∃ cs, createNodeContainers sampleExternals ownRegistryRequest = some cs ∧
      cs[2]?.map (fun c => c.Image) = some "reg.example.com/node:1.2.3" :=
  have hcs : createNodeContainers sampleExternals ownRegistryRequest =
      some (containersLiteral sampleExternals "/liveness-probe:v2.1.0" "Always"
        "/csi-node-driver-registrar:v1.0.1-gke.0" "Always"
        "reg.example.com/node:1.2.3" "IfNotPresent"
        "reg.example.com/drivemgr:1.2.3" "IfNotPresent") := by decide
  ⟨rfl, _, hcs,
    createNodeContainers_driver_image sampleExternals ownRegistryRequest _
      { Name := "node", Registry := "reg.example.com", Tag := "1.2.3",
        PullPolicy := "IfNotPresent" } hcs rfl rfl⟩

/-- C6 (as stated, refuted): the daemon set assembled for the scenario of the
specification has 13 volumes, not 11, of which 12 (not 10) are host-path or
empty-directory volumes. -/
theorem createNodeDaemonSet_eleven_volumes_counterexample :
    ∃ ds, createNodeDaemonSet sampleExternals scenarioRequest = some ds ∧
      ds.Spec.Template.Spec.Volumes.length = 13 ∧
      ds.Spec.Template.Spec.Volumes.length ≠ 11 ∧
      (ds.Spec.Template.Spec.Volumes.filter isHostPathOrEmptyDir).length = 12 ∧
      (ds.Spec.Template.Spec.Volumes.filter isHostPathOrEmptyDir).length ≠ 10 :=
  ⟨(createNodeDaemonSet sampleExternals scenarioRequest).getD {},
    by decide, by decide, by decide, by decide, by decide⟩

/-- C6 (amended): every assembled daemon set carries the list of
`createNodeVolumes`, which has exactly 13 volumes: 12 host-path or
empty-directory volumes (one empty directory and 11 host paths) and exactly
one config-map volume, which is marked optional. -/
theorem createNodeDaemonSet_thirteen_volumes (k : Externals) (csi : Deployment)
    (ds : v1.DaemonSet) (hds : createNodeDaemonSet k csi = some ds) :
    ds.Spec.Template.Spec.Volumes = createNodeVolumes k ∧
    ds.Spec.Template.Spec.Volumes.length = 13 ∧
    (ds.Spec.Template.Spec.Volumes.filter isHostPathOrEmptyDir).length = 12 ∧
    (ds.Spec.Template.Spec.Volumes.filter
      (fun v => v.VolumeSource.EmptyDir.isSome)).length = 1 ∧
    (ds.Spec.Template.Spec.Volumes.filter
      (fun v => v.VolumeSource.HostPath.isSome)).length = 11 ∧
    (ds.Spec.Template.Spec.Volumes.filter isConfigMap).length = 1 ∧
    (∀ v ∈ ds.Spec.Template.Spec.Volumes, ∀ cm : corev1.ConfigMapVolumeSource,
      v.VolumeSource.ConfigMap = some cm → cm.Optional = some true) := by
  unfold createNodeDaemonSet at hds
  simp only [Option.bind_eq_bind, Option.bind_eq_some, Option.pure_def, Option.some.injEq] at hds
  obtain ⟨cs, -, rfl⟩ := hds
  refine ⟨rfl, rfl, rfl, rfl, rfl, rfl, ?_⟩
  intro v hv cm hcm
  simp only [createNodeVolumes, List.mem_cons, List.mem_singleton, List.not_mem_nil,
    or_false] at hv
  rcases hv with rfl | rfl | rfl | rfl | rfl | rfl | rfl | rfl | rfl | rfl | rfl | rfl | rfl <;>
    simp at hcm
  subst hcm
  rfl

/-- C6 (amended), at the scenario of the specification. -/
theorem createNodeDaemonSet_thirteen_volumes_witness :
    ∃ ds, createNodeDaemonSet sampleExternals scenarioRequest = some ds ∧
      ds.Spec.Template.Spec.Volumes.length = 13 ∧
      (ds.Spec.Template.Spec.Volumes.filter isHostPathOrEmptyDir).length = 12 ∧
      (ds.Spec.Template.Spec.Volumes.filter isConfigMap).length = 1 :=
  have h := createNodeDaemonSet_thirteen_volumes sampleExternals scenarioRequest
    ((createNodeDaemonSet sampleExternals scenarioRequest).getD {}) (by decide)
  ⟨_, by decide, h.2.1, h.2.2.1, h.2.2.2.2.2.1⟩

/-- C7: override precedence.  Whenever `createNodeContainers` returns and `s`
is the only entry of the override list named "liveness-probe", with image
descriptor `img`, the liveness-probe container has the image
`constructImage testEnv img`, which ends in `:` followed by the tag of `img`,
and the pull policy of `img`; and the same image and pull policy come out for
every other value of the global registry, so neither the defaults nor the
global registry reach this container.  The same for
"csi-node-driver-registrar" and the registrar container. -/
theorem createNodeContainers_override_precedence (k : Externals) (csi : Deployment)
    (cs : List corev1.Container) (pre post : List (Option Sidecar)) (s : Sidecar) (img : Image)
    (hcs : createNodeContainers k csi = some cs)
    (hl : csi.Spec.Driver.Node.Sidecars = pre ++ some s :: post)
    (himg : s.Image = some img) :
    (s.Name = livenessProbeSidecar →
      (∀ t : Sidecar, some t ∈ pre → t.Name ≠ livenessProbeSidecar) →
      (∀ t : Sidecar, some t ∈ post → t.Name ≠ livenessProbeSidecar) →
        cs[0]?.map (fun c => c.Image) =
          constructImage csi.Spec.Driver.Node.TestEnv (some img) ∧
        (∃ p : String, cs[0]?.map (fun c => c.Image) = some (p ++ ":" ++ img.Tag)) ∧
        cs[0]?.map (fun c => c.ImagePullPolicy) = some img.PullPolicy ∧
        ∀ (g : String) (cs₂ : List corev1.Container),
          createNodeContainers k { csi with Spec := { csi.Spec with GlobalRegistry := g } } =
            some cs₂ →
          cs₂[0]?.map (fun c => (c.Image, c.ImagePullPolicy)) =
            cs[0]?.map (fun c => (c.Image, c.ImagePullPolicy))) ∧
    (s.Name = driverRegistrarSidecar →
      (∀ t : Sidecar, some t ∈ pre → t.Name ≠ driverRegistrarSidecar) →
      (∀ t : Sidecar, some t ∈ post → t.Name ≠ driverRegistrarSidecar) →
        cs[1]?.map (fun c => c.Image) =
          constructImage csi.Spec.Driver.Node.TestEnv (some img) ∧
        (∃ p : String, cs[1]?.map (fun c => c.Image) = some (p ++ ":" ++ img.Tag)) ∧
        cs[1]?.map (fun c => c.ImagePullPolicy) = some img.PullPolicy ∧
        ∀ (g : String) (cs₂ : List corev1.Container),
          createNodeContainers k { csi with Spec := { csi.Spec with GlobalRegistry := g } } =
            some cs₂ →
          cs₂[1]?.map (fun c => (c.Image, c.ImagePullPolicy)) =
            cs[1]?.map (fun c => (c.Image, c.ImagePullPolicy))) := by
  have hsuffix : ∀ (t : Bool) (r : String), constructImage t (some img) = some r →
      ∃ p : String, r = p ++ ":" ++ img.Tag := by
    intro t r hr
    rw [constructImage_some] at hr
    cases t
    · exact ⟨img.Registry ++ "/" ++ img.Name, by simpa using hr.symm⟩
    · exact ⟨img.Name, by simpa using hr.symm⟩
  have keyLp : ∀ (d : Deployment) (ds : List corev1.Container),
      createNodeContainers k d = some ds →
      d.Spec.Driver.Node.Sidecars = pre ++ some s :: post →
      s.Name = livenessProbeSidecar →
      (∀ t : Sidecar, some t ∈ post → t.Name ≠ livenessProbeSidecar) →
      ds[0]?.map (fun c => (c.Image, c.ImagePullPolicy)) =
        (constructImage d.Spec.Driver.Node.TestEnv (some img)).map
          (fun a => (a, img.PullPolicy)) := by
    intro d ds hds hdl hs hpost
    obtain ⟨lp, dr, lpi, dri, ni, di, a₁, a₂, a₃, a₄, hlp, -, hlpi, -, -, -, h1, -, -, -, rfl⟩ :=
      createNodeContainers_eq_some k d ds hds
    simp only [resolvedLivenessProbe, Option.map_eq_some'] at hlp
    obtain ⟨r, hscan, hr⟩ := hlp
    rw [hdl] at hscan
    have h := scanSidecars_fst_of_last pre post s none none r hs hpost hscan
    rw [h] at hr
    subst hr
    rw [himg] at hlpi
    cases hlpi
    rw [h1]
    simp [containersLiteral]
  have keyDr : ∀ (d : Deployment) (ds : List corev1.Container),
      createNodeContainers k d = some ds →
      d.Spec.Driver.Node.Sidecars = pre ++ some s :: post →
      s.Name = driverRegistrarSidecar →
      (∀ t : Sidecar, some t ∈ post → t.Name ≠ driverRegistrarSidecar) →
      ds[1]?.map (fun c => (c.Image, c.ImagePullPolicy)) =
        (constructImage d.Spec.Driver.Node.TestEnv (some img)).map
          (fun a => (a, img.PullPolicy)) := by
    intro d ds hds hdl hs hpost
    obtain ⟨lp, dr, lpi, dri, ni, di, a₁, a₂, a₃, a₄, -, hdr, -, hdri, -, -, -, h2, -, -, rfl⟩ :=
      createNodeContainers_eq_some k d ds hds
    simp only [resolvedDriverRegistrar, Option.map_eq_some'] at hdr
    obtain ⟨r, hscan, hr⟩ := hdr
    rw [hdl] at hscan
    have h := scanSidecars_snd_of_last pre post s none none r hs hpost hscan
    rw [h] at hr
    subst hr
    rw [himg] at hdri
    cases hdri
    rw [h2]
    simp [containersLiteral]
  constructor
  · intro hs _ hpost
    have h0 := keyLp csi cs hcs hl hs hpost
    obtain ⟨r, hr⟩ : ∃ r, constructImage csi.Spec.Driver.Node.TestEnv (some img) = some r :=
      ⟨_, constructImage_some _ _⟩
    rw [hr] at h0 ⊢
    obtain ⟨p, hp⟩ := hsuffix _ r hr
    cases hc : cs[0]? with
    | none => simp [hc] at h0
    | some c =>
      simp only [hc, Option.map_some', Option.some.injEq, Prod.mk.injEq] at h0
      refine ⟨by simp [h0.1], ⟨p, by simp [h0.1, hp]⟩, by simp [h0.2], ?_⟩
      intro g cs₂ h₂
      have h1 := keyLp _ cs₂ h₂ hl hs hpost
      rw [h1]
      simp only [hr, Option.map_some', h0.1, h0.2]
  · intro hs _ hpost
    have h0 := keyDr csi cs hcs hl hs hpost
    obtain ⟨r, hr⟩ : ∃ r, constructImage csi.Spec.Driver.Node.TestEnv (some img) = some r :=
      ⟨_, constructImage_some _ _⟩
    rw [hr] at h0 ⊢
    obtain ⟨p, hp⟩ := hsuffix _ r hr
    cases hc : cs[1]? with
    | none => simp [hc] at h0
    | some c =>
      simp only [hc, Option.map_some', Option.some.injEq, Prod.mk.injEq] at h0
      refine ⟨by simp [h0.1], ⟨p, by simp [h0.1, hp]⟩, by simp [h0.2], ?_⟩
      intro g cs₂ h₂
      have h1 := keyDr _ cs₂ h₂ hl hs hpost
      rw [h1]
      simp only [hr, Option.map_some', h0.1, h0.2]

/-- C7, at the request with one override per well-known name: the
liveness-probe container follows `lpOverrideA`, the registrar container
`drOverrideB`. -/
theorem createNodeContainers_override_precedence_witness :
    ∃ cs, createNodeContainers sampleExternals singleOverridesRequest = some cs ∧
      (cs[0]?.map (fun c => c.Image) = some "a/lp:v1" ∧
        cs[0]?.map (fun c => c.ImagePullPolicy) = some "Never") ∧
      (cs[1]?.map (fun c => c.Image) = some "b/dr:v4" ∧
        cs[1]?.map (fun c => c.ImagePullPolicy) = some "IfNotPresent") :=
  have hcs : createNodeContainers sampleExternals singleOverridesRequest =
      some (containersLiteral sampleExternals "a/lp:v1" "Never" "b/dr:v4" "IfNotPresent"
        "/node:1.2.3" "IfNotPresent" "reg.example.com/drivemgr:1.2.3" "IfNotPresent") := by
    decide
  have hlp := (createNodeContainers_override_precedence sampleExternals singleOverridesRequest _
    [some { Name := "other" }] [some drOverrideB] lpOverrideA
    { Name := "lp", Registry := "a", Tag := "v1", PullPolicy := "Never" } hcs rfl rfl).1
    (by decide) (by intro t ht; simp at ht; subst ht; decide)
    (by intro t ht; simp at ht; subst ht; decide)
  have hdr := (createNodeContainers_override_precedence sampleExternals singleOverridesRequest _
    [some { Name := "other" }, some lpOverrideA] [] drOverrideB
    { Name := "dr", Registry := "b", Tag := "v4", PullPolicy := "IfNotPresent" } hcs rfl rfl).2
    (by decide)
    (by intro t ht; simp at ht; rcases ht with rfl | rfl <;> decide)
    (by intro t ht; simp at ht)
  ⟨_, hcs, ⟨hlp.1.trans (by decide), hlp.2.2.1⟩, ⟨hdr.1.trans (by decide), hdr.2.2.1⟩⟩

/-- C8: default fallback.  Whenever `createNodeContainers` returns and no
override is named "liveness-probe", the liveness-probe container has the image
built from the descriptor with name "liveness-probe", the global registry and
tag "v2.1.0", so its image ends in ":v2.1.0", and the pull policy "Always";
when no override is named "csi-node-driver-registrar", the registrar container
has the image built from name "csi-node-driver-registrar", the global registry
and tag "v1.0.1-gke.0", ending in ":v1.0.1-gke.0", and pull policy "Always". -/
theorem createNodeContainers_default_fallback (k : Externals) (csi : Deployment)
    (cs : List corev1.Container) (hcs : createNodeContainers k csi = some cs) :
    ((∀ t : Sidecar, some t ∈ csi.Spec.Driver.Node.Sidecars → t.Name ≠ livenessProbeSidecar) →
      cs[0]?.map (fun c => c.Image) =
        constructImage csi.Spec.Driver.Node.TestEnv
          (some { Name := "liveness-probe", Registry := csi.Spec.GlobalRegistry,
                  Tag := "v2.1.0", PullPolicy := "Always" }) ∧
      (∃ p : String, cs[0]?.map (fun c => c.Image) = some (p ++ ":v2.1.0")) ∧
      cs[0]?.map (fun c => c.ImagePullPolicy) = some "Always") ∧
    ((∀ t : Sidecar, some t ∈ csi.Spec.Driver.Node.Sidecars → t.Name ≠ driverRegistrarSidecar) →
      cs[1]?.map (fun c => c.Image) =
        constructImage csi.Spec.Driver.Node.TestEnv
          (some { Name := "csi-node-driver-registrar", Registry := csi.Spec.GlobalRegistry,
                  Tag := "v1.0.1-gke.0", PullPolicy := "Always" }) ∧
      (∃ p : String, cs[1]?.map (fun c => c.Image) = some (p ++ ":v1.0.1-gke.0")) ∧
      cs[1]?.map (fun c => c.ImagePullPolicy) = some "Always") := by
  obtain ⟨lp, dr, lpi, dri, ni, di, a₁, a₂, a₃, a₄, hlp, hdr, hlpi, hdri, -, -, h1, h2, -, -, rfl⟩ :=
    createNodeContainers_eq_some k csi cs hcs
  constructor
  · intro hno
    simp only [resolvedLivenessProbe, Option.map_eq_some'] at hlp
    obtain ⟨r, hscan, hr⟩ := hlp
    have h := scanSidecars_fst_of_no_match _ none none r hno hscan
    rw [h] at hr
    subst hr
    simp only [constructSidecar, Option.some.injEq] at hlpi
    subst hlpi
    refine ⟨by simpa [containersLiteral, livenessProbeSidecar] using h1.symm, ?_,
      by simp [containersLiteral]⟩
    rw [constructImage_some] at h1
    cases hte : csi.Spec.Driver.Node.TestEnv
    · refine ⟨csi.Spec.GlobalRegistry ++ "/" ++ "liveness-probe", ?_⟩
      have e : a₁ = csi.Spec.GlobalRegistry ++ "/" ++ "liveness-probe" ++ ":" ++ "v2.1.0" := by
        simpa [livenessProbeSidecar, hte] using h1.symm
      have e₂ : csi.Spec.GlobalRegistry ++ "/" ++ "liveness-probe" ++ ":" ++ "v2.1.0" =
          csi.Spec.GlobalRegistry ++ "/" ++ "liveness-probe" ++ ":v2.1.0" := by
        rw [String.append_assoc _ ":" "v2.1.0"]; rfl
      simp only [containersLiteral, List.getElem?_cons_zero, Option.map_some']
      rw [e, e₂]
    · exact ⟨"liveness-probe", by
        simpa [containersLiteral, livenessProbeSidecar, hte] using h1.symm⟩
  · intro hno
    simp only [resolvedDriverRegistrar, Option.map_eq_some'] at hdr
    obtain ⟨r, hscan, hr⟩ := hdr
    have h := scanSidecars_snd_of_no_match _ none none r hno hscan
    rw [h] at hr
    subst hr
    simp only [constructSidecar, Option.some.injEq] at hdri
    subst hdri
    refine ⟨by simpa [containersLiteral, driverRegistrarSidecar] using h2.symm, ?_,
      by simp [containersLiteral]⟩
    rw [constructImage_some] at h2
    cases hte : csi.Spec.Driver.Node.TestEnv
    · refine ⟨csi.Spec.GlobalRegistry ++ "/" ++ "csi-node-driver-registrar", ?_⟩
      have e : a₂ = csi.Spec.GlobalRegistry ++ "/" ++ "csi-node-driver-registrar" ++ ":" ++
          "v1.0.1-gke.0" := by
        simpa [driverRegistrarSidecar, hte] using h2.symm
      have e₂ : csi.Spec.GlobalRegistry ++ "/" ++ "csi-node-driver-registrar" ++ ":" ++
          "v1.0.1-gke.0" =
          csi.Spec.GlobalRegistry ++ "/" ++ "csi-node-driver-registrar" ++ ":v1.0.1-gke.0" := by
        rw [String.append_assoc _ ":" "v1.0.1-gke.0"]; rfl
      simp only [containersLiteral, List.getElem?_cons_succ, List.getElem?_cons_zero,
        Option.map_some']
      rw [e, e₂]
    · exact ⟨"csi-node-driver-registrar", by
        simpa [containersLiteral, driverRegistrarSidecar, hte] using h2.symm⟩

/-- C8, at the scenario of the specification, whose override list is empty. -/
theorem createNodeContainers_default_fallback_witness :
    scenarioRequest.Spec.Driver.Node.Sidecars = [] ∧
    ∃ cs, createNodeContainers sampleExternals scenarioRequest = some cs ∧
      (cs[0]?.map (fun c => c.Image) = some "reg.example.com/liveness-probe:v2.1.0" ∧
        cs[0]?.map (fun c => c.ImagePullPolicy) = some "Always") ∧
      (cs[1]?.map (fun c => c.Image) =
          some "reg.example.com/csi-node-driver-registrar:v1.0.1-gke.0" ∧
        cs[1]?.map (fun c => c.ImagePullPolicy) = some "Always") :=
  have hcs : createNodeContainers sampleExternals scenarioRequest =
      some (containersLiteral sampleExternals "reg.example.com/liveness-probe:v2.1.0" "Always"
        "reg.example.com/csi-node-driver-registrar:v1.0.1-gke.0" "Always"
        "/node:1.2.3" "IfNotPresent" "reg.example.com/drivemgr:1.2.3" "IfNotPresent") := by
    decide
  have h := createNodeContainers_default_fallback sampleExternals scenarioRequest _ hcs
  have hlp := h.1 (by intro t ht; simp [scenarioRequest] at ht)
  have hdr := h.2 (by intro t ht; simp [scenarioRequest] at ht)
  ⟨rfl, _, hcs, ⟨hlp.1.trans (by decide), hlp.2.2⟩, ⟨hdr.1.trans (by decide), hdr.2.2⟩⟩

/-- C9: the image resolver.  For a non-nil descriptor `d`, `constructImage`
returns `Name:Tag` under the test-environment flag and `Registry/Name:Tag`
otherwise; under the flag two descriptors that agree on name and tag resolve
alike, whatever their registries; and with `testEnv = true` the four containers
that `createNodeContainers` returns carry `Name:Tag` of, in order, the resolved
liveness-probe descriptor, the resolved registrar descriptor, the driver image
and the drive-manager image. -/
theorem constructImage_forms (d d₂ : Image) (k : Externals) (csi : Deployment)
    (cs : List corev1.Container) :
    constructImage true (some d) = some (d.Name ++ ":" ++ d.Tag) ∧
    constructImage false (some d) = some (d.Registry ++ "/" ++ d.Name ++ ":" ++ d.Tag) ∧
    (d.Name = d₂.Name → d.Tag = d₂.Tag →
      constructImage true (some d) = constructImage true (some d₂)) ∧
    (csi.Spec.Driver.Node.TestEnv = true → createNodeContainers k csi = some cs →
      ∃ lp dr : Sidecar, ∃ lpi dri ni di : Image,
        resolvedLivenessProbe csi = some lp ∧ lp.Image = some lpi ∧
        resolvedDriverRegistrar csi = some dr ∧ dr.Image = some dri ∧
        csi.Spec.Driver.Node.Image = some ni ∧
        csi.Spec.Driver.Node.DriveMgr.Image = some di ∧
        cs.map (fun c => c.Image) =
          [lpi.Name ++ ":" ++ lpi.Tag, dri.Name ++ ":" ++ dri.Tag,
           ni.Name ++ ":" ++ ni.Tag, di.Name ++ ":" ++ di.Tag]) := by
  refine ⟨rfl, rfl, ?_, ?_⟩
  · intro hn ht
    simp [constructImage, hn, ht]
  · intro hte hcs
    obtain ⟨lp, dr, lpi, dri, ni, di, a₁, a₂, a₃, a₄, hlp, hdr, hlpi, hdri, hni, hdi,
      h1, h2, h3, h4, rfl⟩ := createNodeContainers_eq_some k csi cs hcs
    rw [hte] at h1 h2 h3 h4
    simp only [constructImage, if_true, Option.some.injEq] at h1 h2 h3 h4
    refine ⟨lp, dr, lpi, dri, ni, di, hlp, hlpi, hdr, hdri, hni, hdi, ?_⟩
    simp [containersLiteral, h1, h2, h3, h4]

/-- C9, at the scenario request switched to the test environment: no image
carries the registry `reg.example.com`. -/
theorem constructImage_forms_witness :
    ∃ cs, createNodeContainers sampleExternals (requestWith [] true) = some cs ∧
      cs.map (fun c => c.Image) =
        ["liveness-probe:v2.1.0", "csi-node-driver-registrar:v1.0.1-gke.0",
         "node:1.2.3", "drivemgr:1.2.3"] ∧
      constructImage true (some { Name := "node", Registry := "a", Tag := "1" }) =
        constructImage true (some { Name := "node", Registry := "b", Tag := "1" }) ∧
      ∃ lp dr : Sidecar, ∃ lpi dri ni di : Image,
        resolvedLivenessProbe (requestWith [] true) = some lp ∧ lp.Image = some lpi ∧
        resolvedDriverRegistrar (requestWith [] true) = some dr ∧ dr.Image = some dri ∧
        (requestWith [] true).Spec.Driver.Node.Image = some ni ∧
        (requestWith [] true).Spec.Driver.Node.DriveMgr.Image = some di ∧
        cs.map (fun c => c.Image) =
          [lpi.Name ++ ":" ++ lpi.Tag, dri.Name ++ ":" ++ dri.Tag,
           ni.Name ++ ":" ++ ni.Tag, di.Name ++ ":" ++ di.Tag] :=
  have hcs : createNodeContainers sampleExternals (requestWith [] true) =
      some (containersLiteral sampleExternals "liveness-probe:v2.1.0" "Always"
        "csi-node-driver-registrar:v1.0.1-gke.0" "Always"
        "node:1.2.3" "IfNotPresent" "drivemgr:1.2.3" "IfNotPresent") := by decide
  have h := constructImage_forms { Name := "node", Registry := "a", Tag := "1" }
    { Name := "node", Registry := "b", Tag := "1" } sampleExternals (requestWith [] true)
    (containersLiteral sampleExternals "liveness-probe:v2.1.0" "Always"
        "csi-node-driver-registrar:v1.0.1-gke.0" "Always"
        "node:1.2.3" "IfNotPresent" "drivemgr:1.2.3" "IfNotPresent")
  ⟨_, hcs, by decide, h.2.2.1 rfl rfl, h.2.2.2 rfl hcs⟩

/-- C10: volume/mount referential integrity.  With `LogsVolume` and
`CSISocketDirVolume` distinct from each other and from the volume names of the
`const` block, every volume name mounted by a container that
`createNodeContainers` returns occurs exactly once among the names of the
volumes of `createNodeVolumes`. -/
theorem createNodeContainers_mounts_declared_once (k : Externals) (csi : Deployment)
    (cs : List corev1.Container) (hcs : createNodeContainers k csi = some cs)
    (hne : k.LogsVolume ≠ k.CSISocketDirVolume)
    (hlogs : k.LogsVolume ∉ declaredVolumeNames)
    (hsock : k.CSISocketDirVolume ∉ declaredVolumeNames) :
    ∀ c ∈ cs, ∀ m ∈ c.VolumeMounts,
      ((createNodeVolumes k).map (fun v => v.Name)).count m.Name = 1 := by
  obtain ⟨lp, dr, lpi, dri, ni, di, a₁, a₂, a₃, a₄, -, -, -, -, -, -, -, -, -, -, rfl⟩ :=
    createNodeContainers_eq_some k csi cs hcs
  have hnames : (createNodeVolumes k).map (fun v => v.Name) =
      [k.LogsVolume, "host-dev", "host-home", "host-sys", "host-root", "host-run-udev",
       "host-run-lvm", "host-run-lock", k.CSISocketDirVolume, "registration-dir",
       "mountpoint-dir", "csi-path", "drive-config"] := rfl
  simp only [declaredVolumeNames, registrationDirVolume, hostDevVolume, hostHomeVolume,
    hostSysVolume, hostRootVolume, hostRunUdevVolume, hostRunLVMVolume, hostRunLock,
    mountPointDirVolume, csiPathVolume, driveConfigVolume, List.mem_cons, List.mem_singleton,
    List.not_mem_nil, or_false, not_or] at hlogs hsock
  obtain ⟨l1, l2, l3, l4, l5, l6, l7, l8, l9, l10, l11⟩ := hlogs
  obtain ⟨s1, s2, s3, s4, s5, s6, s7, s8, s9, s10, s11⟩ := hsock
  have hnd : ((createNodeVolumes k).map (fun v => v.Name)).Nodup := by
    rw [hnames]
    simp only [List.nodup_cons, List.mem_cons, List.mem_singleton, List.not_mem_nil, or_false,
      not_or, List.nodup_nil, and_true]
    refine ⟨⟨?_, ?_, ?_, ?_, ?_, ?_, ?_, hne, ?_, ?_, ?_, ?_⟩,
      ⟨?_, ?_, ?_, ?_, ?_, ?_, ?_, ?_, ?_, ?_, ?_⟩, ⟨?_, ?_, ?_, ?_, ?_, ?_, ?_, ?_, ?_, ?_⟩,
      ⟨?_, ?_, ?_, ?_, ?_, ?_, ?_, ?_, ?_⟩, ⟨?_, ?_, ?_, ?_, ?_, ?_, ?_, ?_⟩,
      ⟨?_, ?_, ?_, ?_, ?_, ?_, ?_⟩, ⟨?_, ?_, ?_, ?_, ?_, ?_⟩, ⟨?_, ?_, ?_, ?_, ?_⟩,
      ⟨?_, ?_, ?_, ?_⟩, ⟨?_, ?_, ?_⟩, ⟨?_, ?_⟩, ?_⟩ <;>
      first
        | assumption
        | decide
        | (intro e; first
            | exact l1 e.symm | exact l2 e.symm | exact l3 e.symm | exact l4 e.symm
            | exact l5 e.symm | exact l6 e.symm | exact l7 e.symm | exact l8 e.symm
            | exact l9 e.symm | exact l10 e.symm | exact l11 e.symm
            | exact s1 e.symm | exact s2 e.symm | exact s3 e.symm | exact s4 e.symm
            | exact s5 e.symm | exact s6 e.symm | exact s7 e.symm | exact s8 e.symm)
  intro c hc m hm
  apply List.count_eq_one_of_mem hnd
  rw [hnames]
  simp only [containersLiteral, List.mem_cons, List.mem_singleton, List.not_mem_nil,
    or_false] at hc
  rcases hc with rfl | rfl | rfl | rfl <;>
    simp only [List.mem_cons, List.mem_singleton, List.not_mem_nil, or_false] at hm
  · subst hm
    simp
  · rcases hm with rfl | rfl <;> simp [registrationDirVolume]
  · rcases hm with rfl | rfl | rfl | rfl | rfl | rfl | rfl | rfl | rfl | rfl <;>
      simp [hostDevVolume, hostSysVolume, hostRootVolume, hostRunUdevVolume, hostRunLVMVolume,
        hostRunLock, mountPointDirVolume, csiPathVolume]
  · rcases hm with rfl | rfl | rfl <;>
      simp [hostDevVolume, hostHomeVolume, driveConfigVolume]

/-- C10, with the names the operator declares (`logs`, `csi-socket-dir`) and
the scenario request. -/
theorem createNodeContainers_mounts_declared_once_witness :
    ∃ cs, createNodeContainers sampleExternals scenarioRequest = some cs ∧
      ∀ c ∈ cs, ∀ m ∈ c.VolumeMounts,
        ((createNodeVolumes sampleExternals).map (fun v => v.Name)).count m.Name = 1 :=
  have hcs : createNodeContainers sampleExternals scenarioRequest =
      some (containersLiteral sampleExternals "reg.example.com/liveness-probe:v2.1.0" "Always"
        "reg.example.com/csi-node-driver-registrar:v1.0.1-gke.0" "Always"
        "/node:1.2.3" "IfNotPresent" "reg.example.com/drivemgr:1.2.3" "IfNotPresent") := by
    decide
  ⟨_, hcs, createNodeContainers_mounts_declared_once sampleExternals scenarioRequest _ hcs
    (by decide) (by decide) (by decide)⟩

/-! ### Further lemmas -/

/-- An entry with neither well-known name does not change the scan. -/
theorem scanSidecars_skip (pre post : List (Option Sidecar)) (s : Sidecar)
    (lp dr : Option Sidecar) (h₁ : s.Name ≠ livenessProbeSidecar)
    (h₂ : s.Name ≠ driverRegistrarSidecar) :
    scanSidecars (pre ++ some s :: post) lp dr = scanSidecars (pre ++ post) lp dr := by
  rw [scanSidecars_append, scanSidecars_append]
  congr 1
  funext r
  simp only [scanSidecars, if_neg h₁, if_neg h₂]

/-- A completed scan has met no nil entry. -/
theorem scanSidecars_no_nil (l : List (Option Sidecar)) (lp dr : Option Sidecar)
    (r : Option Sidecar × Option Sidecar) (h : scanSidecars l lp dr = some r) :
    ∀ v ∈ l, v ≠ none := by
  induction l generalizing lp dr with
  | nil => intro v hv; simp at hv
  | cons w rest ih =>
    cases w with
    | none => simp [scanSidecars] at h
    | some s =>
      simp only [scanSidecars] at h
      intro v hv
      rcases List.mem_cons.mp hv with rfl | hv
      · simp
      · split at h
        · exact ih _ _ h v hv
        · split at h
          · exact ih _ _ h v hv
          · exact ih _ _ h v hv

/-- An if-then-else differs from `x` when both of its branches do. -/
theorem ite_ne_of {c : Prop} [Decidable c] {a b x : Char} (ha : a ≠ x) (hb : b ≠ x) :
    (if c then a else b) ≠ x := by
  split <;> assumption

/-- No digit character is a dollar sign. -/
theorem digitChar_ne_dollar (n : Nat) : Nat.digitChar n ≠ '$' := by
  unfold Nat.digitChar
  repeat (refine ite_ne_of (by decide) ?_)
  decide

/-- Rendering digits puts no dollar sign in front of a list without one. -/
theorem toDigitsCore_no_dollar (b f n : Nat) (ds : List Char) (h : '$' ∉ ds) :
    '$' ∉ Nat.toDigitsCore b f n ds := by
  induction f generalizing n ds with
  | zero => simpa [Nat.toDigitsCore] using h
  | succ f ih =>
    have hd : '$' ∉ Nat.digitChar (n % b) :: ds := by
      simp only [List.mem_cons, not_or]
      exact ⟨fun e => digitChar_ne_dollar _ e.symm, h⟩
    simp only [Nat.toDigitsCore]
    split
    · exact hd
    · exact ih _ _ hd

/-- The decimal rendering of an integer has no dollar sign. -/
theorem Itoa_no_dollar (i : Int) : '$' ∉ (strconv.Itoa i).data := by
  cases i with
  | ofNat n =>
    show '$' ∉ (Nat.repr n).data
    simp only [Nat.repr, List.asString]
    exact toDigitsCore_no_dollar _ _ _ _ (by simp)
  | negSucc n =>
    show '$' ∉ ("-" ++ Nat.repr (n + 1)).data
    simp only [String.data_append, List.mem_append, not_or, Nat.repr, List.asString]
    exact ⟨by decide, toDigitsCore_no_dollar _ _ _ _ (by simp)⟩

/-- Plain text without a dollar sign is skipped by the reference scan. -/
theorem scanRefs_text_append (l₁ l₂ : List Char) (h : '$' ∉ l₁) :
    scanRefs RefScan.text (l₁ ++ l₂) = scanRefs RefScan.text l₂ := by
  induction l₁ with
  | nil => rfl
  | cons c cs ih =>
    simp only [List.mem_cons, not_or] at h
    have hc : c ≠ '$' := fun e => h.1 e.symm
    simp only [List.cons_append, scanRefs, if_neg hc]
    exact ih h.2

/-- Two pieces without a dollar sign make an argument without references. -/
theorem varRefs_append_no_dollar (a b : String) (ha : '$' ∉ a.data) (hb : '$' ∉ b.data) :
    varRefs (a ++ b) = [] := by
  unfold varRefs
  rw [String.data_append, scanRefs_text_append _ _ ha]
  have := scanRefs_text_append b.data [] hb
  simpa [scanRefs] using this

/-! ### Containers, volumes and identity -/

/-- C11: fixed container ordering and count.  Whenever `createNodeContainers`
returns, the result has exactly four containers, named in order
"liveness-probe", "csi-node-driver-registrar", "node" and "drivemgr"; the names
are the same for any two requests on which the function returns, whatever
their overrides, images and test-environment flags. -/
theorem createNodeContainers_names (k : Externals) (csi csi₂ : Deployment)
    (cs cs₂ : List corev1.Container) (hcs : createNodeContainers k csi = some cs) :
    cs.length = 4 ∧
    cs.map (fun c => c.Name) =
      ["liveness-probe", "csi-node-driver-registrar", "node", "drivemgr"] ∧
    (createNodeContainers k csi₂ = some cs₂ →
      cs₂.map (fun c => c.Name) = cs.map (fun c => c.Name)) := by
  obtain ⟨lp, dr, lpi, dri, ni, di, a₁, a₂, a₃, a₄, -, -, -, -, -, -, -, -, -, -, rfl⟩ :=
    createNodeContainers_eq_some k csi cs hcs
  refine ⟨rfl, rfl, ?_⟩
  intro h₂
  obtain ⟨lp, dr, lpi, dri, ni, di, b₁, b₂, b₃, b₄, -, -, -, -, -, -, -, -, -, -, rfl⟩ :=
    createNodeContainers_eq_some k csi₂ cs₂ h₂
  rfl

/-- C11, at the scenario request and at the request whose overrides carry
other images and even the name "liveness-probe" twice. -/
theorem createNodeContainers_names_witness :
    ∃ cs cs₂, createNodeContainers sampleExternals scenarioRequest = some cs ∧
      createNodeContainers sampleExternals duplicateOverridesRequest = some cs₂ ∧
      cs.length = 4 ∧
      cs.map (fun c => c.Name) =
        ["liveness-probe", "csi-node-driver-registrar", "node", "drivemgr"] ∧
      cs₂.map (fun c => c.Name) = cs.map (fun c => c.Name) :=
  have hcs : createNodeContainers sampleExternals scenarioRequest =
      some (containersLiteral sampleExternals "reg.example.com/liveness-probe:v2.1.0" "Always"
        "reg.example.com/csi-node-driver-registrar:v1.0.1-gke.0" "Always"
        "/node:1.2.3" "IfNotPresent" "reg.example.com/drivemgr:1.2.3" "IfNotPresent") := by
    decide
  have hcs₂ : createNodeContainers sampleExternals duplicateOverridesRequest =
      some (containersLiteral sampleExternals "b/lp:v2" "Always" "b/dr:v4" "IfNotPresent"
        "/node:1.2.3" "IfNotPresent" "reg.example.com/drivemgr:1.2.3" "IfNotPresent") := by
    decide
  have h := createNodeContainers_names sampleExternals scenarioRequest
    duplicateOverridesRequest _ _ hcs
  ⟨_, _, hcs, hcs₂, h.1, h.2.1, h.2.2 hcs₂⟩

/-- C12 (as stated, refuted): the host-path volume of the kubernetes.io CSI
plugin directory carries no type at all, so it is not of type `Directory` and
not every host-path volume has an explicit type. -/
theorem createNodeVolumes_csi_path_counterexample :
    ∃ v ∈ createNodeVolumes sampleExternals, v.Name = "csi-path" ∧
      v.VolumeSource.HostPath =
        some { Path := "/var/lib/kubelet/plugins/kubernetes.io/csi", Type_ := none } ∧
      v.VolumeSource.HostPath.bind (fun h => h.Type_) ≠
        some corev1.HostPathType.HostPathDirectory :=
  ⟨{ Name := csiPathVolume, VolumeSource :=
      { HostPath := some { Path := "/var/lib/kubelet/plugins/kubernetes.io/csi" } } },
    by simp [createNodeVolumes], rfl, rfl, by decide⟩

/-- C12 (amended): the host-path volumes of `createNodeVolumes`, by path and
type.  The volumes for /dev, /home, /sys, /, /run/udev, /run/lvm, /run/lock and
/var/lib/kubelet/pods have type `Directory`; the plugin socket directory and
the plugin-registration directory have type `DirectoryOrCreate`; the
kubernetes.io CSI plugin directory is the one host-path volume with no type. -/
theorem createNodeVolumes_host_path_types (k : Externals) :
    (createNodeVolumes k).filterMap
        (fun v => v.VolumeSource.HostPath.map (fun h => (h.Path, h.Type_))) =
      [("/dev", some corev1.HostPathType.HostPathDirectory),
       ("/home", some corev1.HostPathType.HostPathDirectory),
       ("/sys", some corev1.HostPathType.HostPathDirectory),
       ("/", some corev1.HostPathType.HostPathDirectory),
       ("/run/udev", some corev1.HostPathType.HostPathDirectory),
       ("/run/lvm", some corev1.HostPathType.HostPathDirectory),
       ("/run/lock", some corev1.HostPathType.HostPathDirectory),
       ("/var/lib/kubelet/plugins/csi-baremetal",
          some corev1.HostPathType.HostPathDirectoryOrCreate),
       ("/var/lib/kubelet/plugins_registry/",
          some corev1.HostPathType.HostPathDirectoryOrCreate),
       ("/var/lib/kubelet/pods", some corev1.HostPathType.HostPathDirectory),
       ("/var/lib/kubelet/plugins/kubernetes.io/csi", none)] := by
  rfl

/-- C13: stable identity.  Every assembled daemon set is named `nodeName`, a
constant that does not depend on the request, and lives in the namespace
`GetNamespace(csi)`; this is the pair that `Update` puts in its existence
query, which is the first thing it does; and the selector is set, with every
label of it present with the same value among the labels of the pod
template. -/
theorem createNodeDaemonSet_identity {σ ε : Type} (k : Externals) (csi : Deployment)
    (ds : v1.DaemonSet) (c : DaemonSetClient σ ε) (s : σ)
    (hds : createNodeDaemonSet k csi = some ds) :
    ds.ObjectMeta.Name = nodeName k ∧
    ds.ObjectMeta.Namespace = k.GetNamespace csi ∧
    (Update k c csi s).events.head? =
      some (Event.isDaemonSetDeployed ds.ObjectMeta.Namespace ds.ObjectMeta.Name) ∧
    (∃ sel : metav1.LabelSelector, ds.Spec.Selector = some sel ∧
      sel.MatchLabels = [("app", nodeName k)] ∧
      ∀ kv ∈ sel.MatchLabels,
        ds.Spec.Template.ObjectMeta.Labels.lookup kv.1 = some kv.2) := by
  unfold createNodeDaemonSet at hds
  simp only [Option.bind_eq_bind, Option.bind_eq_some, Option.pure_def, Option.some.injEq] at hds
  obtain ⟨cs, hcs, rfl⟩ := hds
  refine ⟨rfl, rfl, ?_, ⟨_, rfl, rfl, ?_⟩⟩
  · simp only [Update]
    split
    · rfl
    · rfl
    · simp only [createNodeDaemonSet, hcs, Option.bind_eq_bind, Option.some_bind, Option.pure_def]
      split <;> rfl
  · intro kv hkv
    simp only [List.mem_singleton] at hkv
    subst hkv
    simp [List.lookup]

/-- C13, at the scenario request against the empty model cluster. -/
theorem createNodeDaemonSet_identity_witness :
    ∃ ds, createNodeDaemonSet sampleExternals scenarioRequest = some ds ∧
      ds.ObjectMeta.Name = "csi-baremetal-node" ∧
      ds.ObjectMeta.Namespace = "storage" ∧
      (Update sampleExternals ModelCluster.client scenarioRequest []).events.head? =
        some (Event.isDaemonSetDeployed ds.ObjectMeta.Namespace ds.ObjectMeta.Name) :=
  have hds : createNodeDaemonSet sampleExternals scenarioRequest =
      some ((createNodeDaemonSet sampleExternals scenarioRequest).getD {}) := by decide
  have h := createNodeDaemonSet_identity sampleExternals scenarioRequest _
    ModelCluster.client [] hds
  ⟨_, hds, h.1.trans (by decide), h.2.1.trans (by decide), h.2.2.1⟩

/-- C14: runtime-derived node name.  In every container that
`createNodeContainers` returns, every environment entry named `KUBE_NODE_NAME`
has an empty static value and a field reference to `spec.nodeName`, so nothing
of the request goes into it; the liveness-probe container has no such entry, and
the registrar, main driver and drive-manager containers have exactly one
each. -/
theorem createNodeContainers_kube_node_name (k : Externals) (csi : Deployment)
    (cs : List corev1.Container) (hcs : createNodeContainers k csi = some cs) :
    (∀ c ∈ cs, ∀ e ∈ c.Env, e.Name = "KUBE_NODE_NAME" →
      e.Value = "" ∧
      e.ValueFrom = some { FieldRef := some { APIVersion := "v1", FieldPath := "spec.nodeName" } }) ∧
    cs.map (fun c => (c.Name, (c.Env.filter (fun e => e.Name = "KUBE_NODE_NAME")).length)) =
      [("liveness-probe", 0), ("csi-node-driver-registrar", 1), ("node", 1), ("drivemgr", 1)] := by
  obtain ⟨lp, dr, lpi, dri, ni, di, a₁, a₂, a₃, a₄, -, -, -, -, -, -, -, -, -, -, rfl⟩ :=
    createNodeContainers_eq_some k csi cs hcs
  refine ⟨?_, rfl⟩
  intro c hc e he hname
  simp only [containersLiteral, List.mem_cons, List.mem_singleton, List.not_mem_nil,
    or_false] at hc
  rcases hc with rfl | rfl | rfl | rfl <;>
    simp only [List.mem_cons, List.mem_singleton, List.not_mem_nil, or_false] at he
  · rcases he with rfl | rfl | rfl
    · exact absurd hname (by decide)
    · exact absurd hname (by decide)
    · exact ⟨rfl, rfl⟩
  · rcases he with rfl | rfl | rfl | rfl | rfl
    · exact absurd hname (by decide)
    · exact absurd hname (by decide)
    · exact ⟨rfl, rfl⟩
    · exact absurd hname (by decide)
    · exact absurd hname (by decide)
  · rcases he with rfl | rfl
    · exact absurd hname (by decide)
    · exact ⟨rfl, rfl⟩

/-- C14, at the scenario request. -/
theorem createNodeContainers_kube_node_name_witness :
    ∃ cs, createNodeContainers sampleExternals scenarioRequest = some cs ∧
      cs.map (fun c => (c.Name, (c.Env.filter (fun e => e.Name = "KUBE_NODE_NAME")).length)) =
        [("liveness-probe", 0), ("csi-node-driver-registrar", 1), ("node", 1),
         ("drivemgr", 1)] :=
  have hcs : createNodeContainers sampleExternals scenarioRequest =
      some (containersLiteral sampleExternals "reg.example.com/liveness-probe:v2.1.0" "Always"
        "reg.example.com/csi-node-driver-registrar:v1.0.1-gke.0" "Always"
        "/node:1.2.3" "IfNotPresent" "reg.example.com/drivemgr:1.2.3" "IfNotPresent") := by
    decide
  ⟨_, hcs, (createNodeContainers_kube_node_name sampleExternals scenarioRequest _ hcs).2⟩

/-- C15: bidirectional mount propagation.  Over the four containers that
`createNodeContainers` returns, the mounts with a mount propagation set are
exactly three, all of the main driver container and all bidirectional: the
pod-mounts directory, the kubernetes.io CSI plugin directory and the host root;
every other mount of every container has no mount propagation. -/
theorem createNodeContainers_mount_propagation (k : Externals) (csi : Deployment)
    (cs : List corev1.Container) (hcs : createNodeContainers k csi = some cs) :
    cs.map (fun c => (c.Name,
        (c.VolumeMounts.filter (fun m => m.MountPropagation.isSome)).map
          (fun m => (m.Name, m.MountPath, m.MountPropagation)))) =
      [("liveness-probe", []),
       ("csi-node-driver-registrar", []),
       ("node",
        [(mountPointDirVolume, "/var/lib/kubelet/pods",
            some corev1.MountPropagationMode.MountPropagationBidirectional),
         (csiPathVolume, "/var/lib/kubelet/plugins/kubernetes.io/csi",
            some corev1.MountPropagationMode.MountPropagationBidirectional),
         (hostRootVolume, "/hostroot",
            some corev1.MountPropagationMode.MountPropagationBidirectional)]),
       ("drivemgr", [])] ∧
    ((cs.map (fun c => c.VolumeMounts)).flatten.filter
        (fun m => m.MountPropagation =
          some corev1.MountPropagationMode.MountPropagationBidirectional)).length = 3 ∧
    (∀ c ∈ cs, ∀ m ∈ c.VolumeMounts,
      m.MountPropagation = some corev1.MountPropagationMode.MountPropagationBidirectional ∨
      m.MountPropagation = none) := by
  obtain ⟨lp, dr, lpi, dri, ni, di, a₁, a₂, a₃, a₄, -, -, -, -, -, -, -, -, -, -, rfl⟩ :=
    createNodeContainers_eq_some k csi cs hcs
  refine ⟨rfl, rfl, ?_⟩
  intro c hc m hm
  simp only [containersLiteral, List.mem_cons, List.mem_singleton, List.not_mem_nil,
    or_false] at hc
  rcases hc with rfl | rfl | rfl | rfl <;>
    simp only [List.mem_cons, List.mem_singleton, List.not_mem_nil, or_false] at hm
  · subst hm; exact Or.inr rfl
  · rcases hm with rfl | rfl <;> exact Or.inr rfl
  · rcases hm with rfl | rfl | rfl | rfl | rfl | rfl | rfl | rfl | rfl | rfl <;>
      first | exact Or.inr rfl | exact Or.inl rfl
  · rcases hm with rfl | rfl | rfl <;> exact Or.inr rfl

/-- C15, at the scenario request. -/
theorem createNodeContainers_mount_propagation_witness :
    ∃ cs, createNodeContainers sampleExternals scenarioRequest = some cs ∧
      ((cs.map (fun c => c.VolumeMounts)).flatten.filter
        (fun m => m.MountPropagation =
          some corev1.MountPropagationMode.MountPropagationBidirectional)).length = 3 :=
  have hcs : createNodeContainers sampleExternals scenarioRequest =
      some (containersLiteral sampleExternals "reg.example.com/liveness-probe:v2.1.0" "Always"
        "reg.example.com/csi-node-driver-registrar:v1.0.1-gke.0" "Always"
        "/node:1.2.3" "IfNotPresent" "reg.example.com/drivemgr:1.2.3" "IfNotPresent") := by
    decide
  ⟨_, hcs, (createNodeContainers_mount_propagation sampleExternals scenarioRequest _ hcs).2.1⟩

/-! ### Errors, overrides and nil pointers -/

/-- C16 (as stated, refuted): a client error `boom` comes back from `Update` as
`boom`, whether the existence query or the create failed; it mentions neither
the name `csi-baremetal-node` nor the namespace `storage` of the workload, and
being the same for both operations it does not tell which one was attempted. -/
theorem Update_error_context_counterexample :
    nodeName sampleExternals = "csi-baremetal-node" ∧
    sampleExternals.GetNamespace scenarioRequest = "storage" ∧
    (Update sampleExternals (scriptedClient (Except.error "boom") none)
      scenarioRequest ()).outcome = Outcome.returned (some "boom") ∧
    (Update sampleExternals (scriptedClient (Except.ok false) (some "boom"))
      scenarioRequest ()).outcome = Outcome.returned (some "boom") ∧
    ¬ mentions "boom" "csi-baremetal-node" ∧
    ¬ mentions "boom" "storage" := by
  refine ⟨by decide, by decide, by decide, by decide, ?_, ?_⟩ <;>
    (unfold mentions; decide)

/-- C16 (amended): whenever `Update` returns an error, that error is the very
error of the client call that failed, with nothing added.  Either the
existence query failed with it, and the log line written with it reads "Failed
to get daemon set"; or the query reported absent, the daemon set was assembled,
the create failed with it, and the log line reads "Failed to create daemon
set".  The operation is told by the log line only. -/
theorem Update_returns_client_error {σ ε : Type} (k : Externals) (c : DaemonSetClient σ ε)
    (csi : Deployment) (s : σ) (e : ε)
    (h : (Update k c csi s).outcome = Outcome.returned (some e)) :
    ((c.isDaemonSetDeployed (k.GetNamespace csi) (nodeName k) s).1 = Except.error e ∧
      (Update k c csi s).events =
        [Event.isDaemonSetDeployed (k.GetNamespace csi) (nodeName k),
         Event.LogError e "Failed to get daemon set"]) ∨
    (∃ ds : v1.DaemonSet,
      (c.isDaemonSetDeployed (k.GetNamespace csi) (nodeName k) s).1 = Except.ok false ∧
      createNodeDaemonSet k csi = some ds ∧
      (c.Create (k.GetNamespace csi) ds
        (c.isDaemonSetDeployed (k.GetNamespace csi) (nodeName k) s).2).1 = Except.error e ∧
      (Update k c csi s).events =
        [Event.isDaemonSetDeployed (k.GetNamespace csi) (nodeName k),
         Event.Create (k.GetNamespace csi) ds,
         Event.LogError e "Failed to create daemon set"]) := by
  rcases hq : c.isDaemonSetDeployed (k.GetNamespace csi) (nodeName k) s with ⟨r, s₁⟩
  cases r with
  | error e₁ =>
    simp only [Update, hq, Outcome.returned.injEq, Option.some.injEq] at h
    subst h
    exact Or.inl ⟨rfl, by simp [Update, hq]⟩
  | ok b =>
    cases b with
    | true => simp [Update, hq] at h
    | false =>
      cases hds : createNodeDaemonSet k csi with
      | none => simp [Update, hq, hds] at h
      | some ds =>
        rcases hc : c.Create (k.GetNamespace csi) ds s₁ with ⟨r₂, s₂⟩
        cases r₂ with
        | error e₂ =>
          simp only [Update, hq, hds, hc, Outcome.returned.injEq, Option.some.injEq] at h
          subst h
          exact Or.inr ⟨ds, rfl, rfl, by simp [hc], by simp [Update, hq, hds, hc]⟩
        | ok d => simp [Update, hq, hds, hc] at h

/-- C16 (amended), on a client whose create is rejected with `boom`. -/
theorem Update_returns_client_error_witness :
    (Update sampleExternals (scriptedClient (Except.ok false) (some "boom"))
      scenarioRequest ()).outcome = Outcome.returned (some "boom") ∧
    (Update sampleExternals (scriptedClient (Except.ok false) (some "boom"))
      scenarioRequest ()).events.getLast? =
        some (Event.LogError "boom" "Failed to create daemon set") :=
  have h₀ : (Update sampleExternals (scriptedClient (Except.ok false) (some "boom"))
      scenarioRequest ()).outcome = Outcome.returned (some "boom") := by decide
  ⟨h₀, (Update_returns_client_error sampleExternals
      (scriptedClient (Except.ok false) (some "boom")) scenarioRequest () "boom" h₀).elim
    (fun h => absurd h.1 (by simp [scriptedClient]))
    (fun ⟨_, _, _, _, hev⟩ => by rw [hev]; rfl)⟩

/-- C17: unrecognised overrides are ignored.  An override `s` whose name is
neither "liveness-probe" nor "csi-node-driver-registrar", put at any position
of the override list or taken out of it, changes nothing in what
`createNodeContainers` yields (a container list, or a nil dereference on
another entry), nor in the name and the specification of the daemon set that
`createNodeDaemonSet` yields; and as long as `GetNamespace` gives both requests
the same namespace, the two daemon sets are equal altogether. -/
theorem createNodeContainers_ignores_unknown (k : Externals) (csi : Deployment)
    (pre post : List (Option Sidecar)) (s : Sidecar)
    (h₁ : s.Name ≠ livenessProbeSidecar) (h₂ : s.Name ≠ driverRegistrarSidecar) :
    createNodeContainers k (setSidecars csi (pre ++ some s :: post)) =
      createNodeContainers k (setSidecars csi (pre ++ post)) ∧
    (createNodeDaemonSet k (setSidecars csi (pre ++ some s :: post))).map
        (fun d => (d.ObjectMeta.Name, d.Spec)) =
      (createNodeDaemonSet k (setSidecars csi (pre ++ post))).map
        (fun d => (d.ObjectMeta.Name, d.Spec)) ∧
    (k.GetNamespace (setSidecars csi (pre ++ some s :: post)) =
        k.GetNamespace (setSidecars csi (pre ++ post)) →
      createNodeDaemonSet k (setSidecars csi (pre ++ some s :: post)) =
        createNodeDaemonSet k (setSidecars csi (pre ++ post))) := by
  have hc : createNodeContainers k (setSidecars csi (pre ++ some s :: post)) =
      createNodeContainers k (setSidecars csi (pre ++ post)) := by
    unfold createNodeContainers
    simp only [setSidecars, scanSidecars_skip pre post s none none h₁ h₂]
  refine ⟨hc, ?_, ?_⟩
  · unfold createNodeDaemonSet
    rw [hc]
    cases createNodeContainers k (setSidecars csi (pre ++ post)) <;> rfl
  · intro hns
    unfold createNodeDaemonSet
    rw [hc, hns]

/-- C17, at the scenario request: an override named "other", with no image,
between a liveness-probe and a registrar override. -/
theorem createNodeContainers_ignores_unknown_witness :
    createNodeContainers sampleExternals
        (setSidecars scenarioRequest
          [some lpOverrideA, some { Name := "other" }, some drOverrideB]) =
      createNodeContainers sampleExternals
        (setSidecars scenarioRequest [some lpOverrideA, some drOverrideB]) ∧
    createNodeDaemonSet sampleExternals
        (setSidecars scenarioRequest
          [some lpOverrideA, some { Name := "other" }, some drOverrideB]) =
      createNodeDaemonSet sampleExternals
        (setSidecars scenarioRequest [some lpOverrideA, some drOverrideB]) :=
  have h := createNodeContainers_ignores_unknown sampleExternals scenarioRequest
    [some lpOverrideA] [some drOverrideB] { Name := "other" } (by decide) (by decide)
  ⟨h.1, h.2.2 rfl⟩

/-- C18: nil-safety.  `createNodeContainers` returns a container list exactly
when the request is `NilSafe`: driver image and drive-manager image set, no nil
entry among the overrides, and an image set in the selected liveness-probe and
registrar overrides.  And it does fail on `nilImageOverrideRequest`, whose only
defect is a selected override without image: no default is put in its
place. -/
theorem createNodeContainers_nil_safety (k : Externals) (csi : Deployment) :
    (NilSafe csi → ∃ cs, createNodeContainers k csi = some cs) ∧
    ((∃ cs, createNodeContainers k csi = some cs) → NilSafe csi) ∧
    (nilImageOverrideRequest.Spec.Driver.Node.Image ≠ none ∧
      nilImageOverrideRequest.Spec.Driver.Node.DriveMgr.Image ≠ none ∧
      (∀ v ∈ nilImageOverrideRequest.Spec.Driver.Node.Sidecars, v ≠ none) ∧
      createNodeContainers k nilImageOverrideRequest = none) := by
  refine ⟨?_, ?_, by decide, by decide, by decide, by rfl⟩
  · rintro ⟨hni, hdi, hall, hsel⟩
    obtain ⟨r, hr⟩ := Option.isSome_iff_exists.mp
      (scanSidecars_isSome csi.Spec.Driver.Node.Sidecars none none hall)
    obtain ⟨ni, hni⟩ := Option.ne_none_iff_exists'.mp hni
    obtain ⟨di, hdi⟩ := Option.ne_none_iff_exists'.mp hdi
    have hlp : ∃ lp lpi, resolvedLivenessProbe csi = some lp ∧ lp.Image = some lpi := by
      cases h1 : r.1 with
      | none =>
        exact ⟨constructSidecar livenessProbeSidecar csi.Spec.GlobalRegistry "v2.1.0" "Always",
          _, by simp only [resolvedLivenessProbe, hr, Option.map_some', h1], rfl⟩
      | some s =>
        obtain ⟨i, hi⟩ := Option.ne_none_iff_exists'.mp (hsel r s hr (Or.inl h1))
        exact ⟨s, i, by simp only [resolvedLivenessProbe, hr, Option.map_some', h1], hi⟩
    have hdr : ∃ dr dri, resolvedDriverRegistrar csi = some dr ∧ dr.Image = some dri := by
      cases h2 : r.2 with
      | none =>
        exact ⟨constructSidecar driverRegistrarSidecar csi.Spec.GlobalRegistry "v1.0.1-gke.0"
          "Always", _, by simp only [resolvedDriverRegistrar, hr, Option.map_some', h2], rfl⟩
      | some s =>
        obtain ⟨i, hi⟩ := Option.ne_none_iff_exists'.mp (hsel r s hr (Or.inr h2))
        exact ⟨s, i, by simp only [resolvedDriverRegistrar, hr, Option.map_some', h2], hi⟩
    obtain ⟨lp, lpi, hlp, hlpi⟩ := hlp
    obtain ⟨dr, dri, hdr, hdri⟩ := hdr
    exact Option.isSome_iff_exists.mp
      (createNodeContainers_isSome k csi lp dr lpi dri ni di hlp hdr hlpi hdri hni hdi)
  · rintro ⟨cs, hcs⟩
    obtain ⟨lp, dr, lpi, dri, ni, di, a₁, a₂, a₃, a₄, hlp, hdr, hlpi, hdri, hni, hdi,
      -, -, -, -, -⟩ := createNodeContainers_eq_some k csi cs hcs
    simp only [resolvedLivenessProbe, Option.map_eq_some'] at hlp
    simp only [resolvedDriverRegistrar, Option.map_eq_some'] at hdr
    obtain ⟨r, hscan, hr⟩ := hlp
    obtain ⟨r₂, hscan₂, hr₂⟩ := hdr
    rw [hscan] at hscan₂
    cases hscan₂
    refine ⟨by simp [hni], by simp [hdi], scanSidecars_no_nil _ _ _ r hscan, ?_⟩
    intro r' s hr' hs
    rw [hscan] at hr'
    cases hr'
    rcases hs with hs | hs
    · rw [hs] at hr
      simp only at hr
      subst hr
      simp [hlpi]
    · rw [hs] at hr₂
      simp only at hr₂
      subst hr₂
      simp [hdri]

/-- C18, at the scenario request, which is nil-safe. -/
theorem createNodeContainers_nil_safety_witness :
    NilSafe scenarioRequest ∧
    (∃ cs, createNodeContainers sampleExternals scenarioRequest = some cs) ∧
    createNodeContainers sampleExternals nilImageOverrideRequest = none :=
  have hsafe : NilSafe scenarioRequest :=
    ⟨by decide, by decide, by decide, by
      intro r s hr hs
      have hr₂ : r = (none, none) := by
        simpa [scenarioRequest, scanSidecars] using hr.symm
      subst hr₂
      simp at hs⟩
  have h := createNodeContainers_nil_safety sampleExternals scenarioRequest
  ⟨hsafe, h.1 hsafe, h.2.2.2.2.2⟩

/-! ### Arguments -/

/-- C19: argument/environment referential integrity.  In the containers that
`createNodeContainers` returns, the arguments reference exactly `ADDRESS` and
`DRIVER_REG_SOCK_PATH` (registrar) and `CSI_ENDPOINT`, `KUBE_NODE_NAME` and
`NAMESPACE` (main driver), whatever the metrics port and the annotation flag
are; and every name referenced as `$(NAME)` in an argument of a container is
the name of an entry of the `Env` list of that same container. -/
theorem createNodeContainers_args_reference_env (k : Externals) (csi : Deployment)
    (cs : List corev1.Container) (hcs : createNodeContainers k csi = some cs) :
    cs.map (fun c => (c.Name, (c.Args.map varRefs).flatten)) =
      [("liveness-probe", []),
       ("csi-node-driver-registrar", ["ADDRESS", "DRIVER_REG_SOCK_PATH"]),
       ("node", ["CSI_ENDPOINT", "KUBE_NODE_NAME", "NAMESPACE"]),
       ("drivemgr", [])] ∧
    (∀ c ∈ cs, ∀ a ∈ c.Args, ∀ v ∈ varRefs a, v ∈ c.Env.map (fun e => e.Name)) := by
  obtain ⟨lp, dr, lpi, dri, ni, di, a₁, a₂, a₃, a₄, -, -, -, -, -, -, -, -, -, -, rfl⟩ :=
    createNodeContainers_eq_some k csi cs hcs
  have hu : varRefs ("--usenodeannotation=" ++ strconv.FormatBool k.UseNodeAnnotation) = [] := by
    cases k.UseNodeAnnotation <;> decide
  have hm : varRefs ("--metrics-address=:" ++ strconv.Itoa k.PrometheusPort) = [] :=
    varRefs_append_no_dollar _ _ (by decide) (Itoa_no_dollar _)
  have hall : (containersLiteral k a₁ lpi.PullPolicy a₂ dri.PullPolicy a₃ ni.PullPolicy a₄
      di.PullPolicy).map
        (fun c => ((c.Args.map varRefs).flatten, c.Env.map (fun e => e.Name))) =
      [([], []),
       (["ADDRESS", "DRIVER_REG_SOCK_PATH"],
        ["ADDRESS", "DRIVER_REG_SOCK_PATH", "KUBE_NODE_NAME"]),
       (["CSI_ENDPOINT", "KUBE_NODE_NAME", "NAMESPACE"],
        ["CSI_ENDPOINT", "LOG_FORMAT", "KUBE_NODE_NAME", "MY_POD_IP", "NAMESPACE"]),
       ([], ["LOG_FORMAT", "KUBE_NODE_NAME"])] := by
    simp only [containersLiteral, List.map, hu, hm]
    rfl
  constructor
  · simp only [containersLiteral, List.map, hu, hm]
    rfl
  · intro c hc a ha v hv
    have hmem : ((c.Args.map varRefs).flatten, c.Env.map (fun e => e.Name)) ∈
        (containersLiteral k a₁ lpi.PullPolicy a₂ dri.PullPolicy a₃ ni.PullPolicy a₄
          di.PullPolicy).map
          (fun c => ((c.Args.map varRefs).flatten, c.Env.map (fun e => e.Name))) :=
      List.mem_map_of_mem _ hc
    have hv₂ : v ∈ (c.Args.map varRefs).flatten :=
      List.mem_flatten.mpr ⟨varRefs a, List.mem_map_of_mem _ ha, hv⟩
    rw [hall] at hmem
    simp only [List.mem_cons, List.mem_singleton, List.not_mem_nil, or_false,
      Prod.mk.injEq] at hmem
    rcases hmem with ⟨h₁, h₂⟩ | ⟨h₁, h₂⟩ | ⟨h₁, h₂⟩ | ⟨h₁, h₂⟩ <;>
      (rw [h₁] at hv₂; rw [h₂]; clear hv; revert v; decide)

/-- C19, at the scenario request. -/
theorem createNodeContainers_args_reference_env_witness :
    ∃ cs, createNodeContainers sampleExternals scenarioRequest = some cs ∧
      ∀ c ∈ cs, ∀ a ∈ c.Args, ∀ v ∈ varRefs a, v ∈ c.Env.map (fun e => e.Name) :=
  have hcs : createNodeContainers sampleExternals scenarioRequest =
      some (containersLiteral sampleExternals "reg.example.com/liveness-probe:v2.1.0" "Always"
        "reg.example.com/csi-node-driver-registrar:v1.0.1-gke.0" "Always"
        "/node:1.2.3" "IfNotPresent" "reg.example.com/drivemgr:1.2.3" "IfNotPresent") := by
    decide
  ⟨_, hcs, (createNodeContainers_args_reference_env sampleExternals scenarioRequest _ hcs).2⟩

/-- C20: driver/drive-manager wire agreement.  In what `createNodeContainers`
returns, the main driver container and the drive-manager container each have
exactly one argument that sets `--drivemgrendpoint=`, the same in both:
`tcp://localhost:` followed by the decimal rendering of `driveManagerPort`,
that is `8888`; and each has exactly one argument that sets
`--usenodeannotation=`, the same in both: the rendering of
`UseNodeAnnotation`. -/
theorem createNodeContainers_wire_agreement (k : Externals) (csi : Deployment)
    (cs : List corev1.Container) (hcs : createNodeContainers k csi = some cs) :
    ∃ node drivemgr : corev1.Container,
      cs[2]? = some node ∧ cs[3]? = some drivemgr ∧
      node.Name = "node" ∧ drivemgr.Name = "drivemgr" ∧
      node.Args.filter (hasFlag "--drivemgrendpoint=") =
        ["--drivemgrendpoint=tcp://localhost:" ++ strconv.Itoa driveManagerPort] ∧
      drivemgr.Args.filter (hasFlag "--drivemgrendpoint=") =
        node.Args.filter (hasFlag "--drivemgrendpoint=") ∧
      "--drivemgrendpoint=tcp://localhost:" ++ strconv.Itoa driveManagerPort =
        "--drivemgrendpoint=tcp://localhost:8888" ∧
      node.Args.filter (hasFlag "--usenodeannotation=") =
        ["--usenodeannotation=" ++ strconv.FormatBool k.UseNodeAnnotation] ∧
      drivemgr.Args.filter (hasFlag "--usenodeannotation=") =
        node.Args.filter (hasFlag "--usenodeannotation=") := by
  obtain ⟨lp, dr, lpi, dri, ni, di, a₁, a₂, a₃, a₄, -, -, -, -, -, -, -, -, -, -, rfl⟩ :=
    createNodeContainers_eq_some k csi cs hcs
  clear hcs
  obtain ⟨n₁, n₂, n₃, n₄, p, t, b, g⟩ := k
  cases b <;> exact ⟨_, _, rfl, rfl, rfl, rfl, rfl, rfl, by decide, rfl, rfl⟩

/-- C20, at the scenario request with the annotation flag of the operator. -/
theorem createNodeContainers_wire_agreement_witness :
    ∃ cs node drivemgr, createNodeContainers sampleExternals scenarioRequest = some cs ∧
      cs[2]? = some node ∧ cs[3]? = some drivemgr ∧
      node.Args.filter (hasFlag "--drivemgrendpoint=") =
        ["--drivemgrendpoint=tcp://localhost:8888"] ∧
      drivemgr.Args.filter (hasFlag "--drivemgrendpoint=") =
        ["--drivemgrendpoint=tcp://localhost:8888"] ∧
      node.Args.filter (hasFlag "--usenodeannotation=") = ["--usenodeannotation=false"] ∧
      drivemgr.Args.filter (hasFlag "--usenodeannotation=") = ["--usenodeannotation=false"] :=
  have hcs : createNodeContainers sampleExternals scenarioRequest =
      some (containersLiteral sampleExternals "reg.example.com/liveness-probe:v2.1.0" "Always"
        "reg.example.com/csi-node-driver-registrar:v1.0.1-gke.0" "Always"
        "/node:1.2.3" "IfNotPresent" "reg.example.com/drivemgr:1.2.3" "IfNotPresent") := by
    decide
  match createNodeContainers_wire_agreement sampleExternals scenarioRequest _ hcs with
  | ⟨node, drivemgr, h₂, h₃, _, _, he, he₂, hport, hu, hu₂⟩ =>
    ⟨_, node, drivemgr, hcs, h₂, h₃, he.trans (congrArg (fun x => [x]) hport),
      (he₂.trans he).trans (congrArg (fun x => [x]) hport),
      hu.trans (by decide), (hu₂.trans hu).trans (by decide)⟩

end pkg
